import Mathlib

/-!
Verification of the debug-overlay renderer `Phaser.Utils.Debug`
(src/src/utils/Debug.js) against its natural-language specification.

The JavaScript code is shallowly embedded as follows.

* JS numbers are modelled as rationals (`ℚ`).  Every arithmetic operation the
  renderer performs is addition, subtraction or multiplication of exact
  values, so the embedding is exact on those.
* The canvas 2D context is modelled as a `Ctx`: its ambient state (`CtxState`:
  fill/stroke style, font, global alpha, line width, current transform), the
  `save`/`restore` stack, and a `trace` recording every operation performed on
  the context, in order.  A draw call such as `fillText` records the text, its
  position, and the ambient fill style / font / alpha in effect at that moment.
* The current transform is represented symbolically: `setTransform(1,0,0,1,0,0)`
  resets it to `[]`, `translate`/`rotate` append an operation.  The claims
  only ever compare transforms for equality, which this representation decides.
  The angle `Math.PI * 2` (used only as the arc sweep) is the symbolic
  constant `AngleVal.twoPi`; all other angles are plain rationals.
* Optional JS parameters are `Option` values (`none` = `undefined`); the
  `typeof x !== 'number'` defaulting and the `color || dflt` falsy-string
  defaulting are modelled by `numOrZero` and `strOr`.
* A JS `TypeError` (property access on `null`/`undefined`) is modelled by the
  `Except` error branch; the error payload is the renderer state at the moment
  the exception is thrown (the surface mutations already performed are kept in
  it, as in JS; no claim inspects them).
* Reads the renderer makes through `this.game` (`game.math.p2px`/`p2pxi`,
  `game.cache.isSoundReady`, `game.input.*`, `game.camera.view.*`) are code of
  the repository outside this file; following the spec (§4.3: a caller-supplied
  physics-to-pixel scale; §6: per-call data snapshots) they are modelled as
  fields of a `GameSnapshot` carried by the renderer.
* Exact numeric string formatting (`toFixed`) is out of the spec's scope
  (§1 excludes "the specific numeric formatting of each diagnostic line");
  it is modelled as plain decimal rendering of the rational.  No claim
  depends on the rendered characters of a number.
-/

namespace Phaser

/-- One symbolic operation on the context's current transform. -/
inductive TransformOp
  | translate (dx dy : ℚ)
  | rotate (theta : ℚ)
deriving DecidableEq, Repr

/-- An angle argument of `arc`: a plain rational number of radians, or the
constant `Math.PI * 2` (the only non-rational angle the source ever passes). -/
inductive AngleVal
  | rad (q : ℚ)
  | twoPi
deriving DecidableEq, Repr

/-- One operation performed on the canvas 2D context, as recorded in the
trace.  Draw calls snapshot the ambient values they depend on. -/
inductive CanvasCmd
  | save
  | restore
  | setTransformIdentity
  | translate (dx dy : ℚ)
  | rotate (theta : ℚ)
  | setFillStyle (c : String)
  | setStrokeStyle (c : String)
  | setFont (f : String)
  | setGlobalAlpha (a : ℚ)
  | setLineWidth (w : ℚ)
  | fillText (text : String) (x y : ℚ) (style font : String) (alpha : ℚ)
  | fillRect (x y w h : ℚ) (style : String) (alpha : ℚ)
  | strokeRect (x y w h : ℚ) (style : String) (alpha : ℚ)
  | beginPath
  | closePath
  | moveTo (x y : ℚ)
  | lineTo (x y : ℚ)
  | arc (x y r : ℚ) (startAngle endAngle : AngleVal) (anticlockwise : Bool)
  | stroke (style : String) (width : ℚ) (transform : List TransformOp)
  | fill (style : String) (alpha : ℚ) (transform : List TransformOp)
deriving DecidableEq, Repr

/-- The ambient state of the canvas 2D context: exactly the fields the
renderer touches. -/
structure CtxState where
  fillStyle : String
  strokeStyle : String
  font : String
  globalAlpha : ℚ
  lineWidth : ℚ
  transform : List TransformOp
deriving DecidableEq, Repr

/-- A canvas 2D context: ambient state, the `save`/`restore` stack, and the
trace of operations performed so far. -/
structure Ctx where
  state : CtxState
  stack : List CtxState
  trace : List CanvasCmd
deriving DecidableEq, Repr

namespace Ctx

/-- Record an operation in the trace. -/
def emit (c : Ctx) (cmd : CanvasCmd) : Ctx :=
  { c with trace := c.trace ++ [cmd] }

/-- Model of `context.save()`: push the full ambient state. -/
def save (c : Ctx) : Ctx :=
  { c with stack := c.state :: c.stack, trace := c.trace ++ [CanvasCmd.save] }

/-- Model of `context.restore()`: pop the state stack; by the canvas
specification a `restore` on an empty stack does nothing. -/
def restore (c : Ctx) : Ctx :=
  match c.stack with
  | [] => c.emit CanvasCmd.restore
  | s :: rest => { c with state := s, stack := rest, trace := c.trace ++ [CanvasCmd.restore] }

/-- Model of `context.setTransform(1, 0, 0, 1, 0, 0)`. -/
def setTransformIdentity (c : Ctx) : Ctx :=
  { c with state := { c.state with transform := [] },
           trace := c.trace ++ [CanvasCmd.setTransformIdentity] }

/-- Model of `context.translate(dx, dy)`. -/
def translate (c : Ctx) (dx dy : ℚ) : Ctx :=
  { c with state := { c.state with transform := c.state.transform ++ [TransformOp.translate dx dy] },
           trace := c.trace ++ [CanvasCmd.translate dx dy] }

/-- Model of `context.rotate(theta)`. -/
def rotate (c : Ctx) (theta : ℚ) : Ctx :=
  { c with state := { c.state with transform := c.state.transform ++ [TransformOp.rotate theta] },
           trace := c.trace ++ [CanvasCmd.rotate theta] }

/-- Model of `context.fillStyle = s`. -/
def setFillStyle (c : Ctx) (s : String) : Ctx :=
  { c with state := { c.state with fillStyle := s },
           trace := c.trace ++ [CanvasCmd.setFillStyle s] }

/-- Model of `context.strokeStyle = s`. -/
def setStrokeStyle (c : Ctx) (s : String) : Ctx :=
  { c with state := { c.state with strokeStyle := s },
           trace := c.trace ++ [CanvasCmd.setStrokeStyle s] }

/-- Model of `context.font = f`. -/
def setFont (c : Ctx) (f : String) : Ctx :=
  { c with state := { c.state with font := f },
           trace := c.trace ++ [CanvasCmd.setFont f] }

/-- Model of `context.globalAlpha = a`. -/
def setGlobalAlpha (c : Ctx) (a : ℚ) : Ctx :=
  { c with state := { c.state with globalAlpha := a },
           trace := c.trace ++ [CanvasCmd.setGlobalAlpha a] }

/-- Model of `context.lineWidth = w`. -/
def setLineWidth (c : Ctx) (w : ℚ) : Ctx :=
  { c with state := { c.state with lineWidth := w },
           trace := c.trace ++ [CanvasCmd.setLineWidth w] }

/-- Model of `context.fillText(text, x, y)`; records the ambient fill style,
font and alpha in effect. -/
def fillText (c : Ctx) (text : String) (x y : ℚ) : Ctx :=
  c.emit (CanvasCmd.fillText text x y c.state.fillStyle c.state.font c.state.globalAlpha)

/-- Model of `context.fillRect(x, y, w, h)`. -/
def fillRect (c : Ctx) (x y w h : ℚ) : Ctx :=
  c.emit (CanvasCmd.fillRect x y w h c.state.fillStyle c.state.globalAlpha)

/-- Model of `context.strokeRect(x, y, w, h)`. -/
def strokeRect (c : Ctx) (x y w h : ℚ) : Ctx :=
  c.emit (CanvasCmd.strokeRect x y w h c.state.strokeStyle c.state.globalAlpha)

/-- Model of `context.beginPath()` (the path is not part of the ambient
state the claims speak about; only the trace records it). -/
def beginPath (c : Ctx) : Ctx := c.emit CanvasCmd.beginPath

/-- Model of `context.closePath()`. -/
def closePath (c : Ctx) : Ctx := c.emit CanvasCmd.closePath

/-- Model of `context.moveTo(x, y)`. -/
def moveTo (c : Ctx) (x y : ℚ) : Ctx := c.emit (CanvasCmd.moveTo x y)

/-- Model of `context.lineTo(x, y)`. -/
def lineTo (c : Ctx) (x y : ℚ) : Ctx := c.emit (CanvasCmd.lineTo x y)

/-- Model of `context.arc(x, y, r, a0, a1, acw)`. -/
def arc (c : Ctx) (x y r : ℚ) (a0 a1 : AngleVal) (acw : Bool) : Ctx :=
  c.emit (CanvasCmd.arc x y r a0 a1 acw)

/-- Model of `context.stroke()`; records the ambient stroke style, line width
and the transform in effect when the path is stroked. -/
def stroke (c : Ctx) : Ctx :=
  c.emit (CanvasCmd.stroke c.state.strokeStyle c.state.lineWidth c.state.transform)

/-- Model of `context.fill()`. -/
def fill (c : Ctx) : Ctx :=
  c.emit (CanvasCmd.fill c.state.fillStyle c.state.globalAlpha c.state.transform)

end Ctx

/-- Reads the renderer makes through `this.game`: inputs external to
Debug.js, carried as a per-instance snapshot (spec §4.3, §6).  `p2px` and
`p2pxi` model the caller-supplied physics-to-pixel scale functions
`game.math.p2px` / `game.math.p2pxi`. -/
structure GameSnapshot where
  p2px : ℚ → ℚ
  p2pxi : ℚ → ℚ
  isSoundReady : String → Bool
  inputX : ℚ
  inputY : ℚ
  inputWorldX : ℚ
  inputWorldY : ℚ
  inputScaleX : ℚ
  screenX : ℚ
  screenY : ℚ
  cameraViewX : ℚ
  cameraViewY : ℚ

/-- The state of a `Phaser.Utils.Debug` instance: exactly its mutable fields.
`sprite` is whether the WebGL-mode offscreen sprite exists (`this.sprite`
non-null); `context` is `none` when the 2D context is `null`.  In the source
`currentColor` is not assigned by the constructor (it is `undefined` until the
first `start`); it is modelled as `""`, a value no claim ever draws with. -/
structure Debug where
  game : GameSnapshot
  sprite : Bool
  context : Option Ctx
  font : String
  columnWidth : ℚ
  lineHeight : ℚ
  renderShadow : Bool
  currentX : ℚ
  currentY : ℚ
  currentColor : String
  currentAlpha : ℚ

/-- Model of the constructor's CANVAS branch (`this.context = this.game.context`);
`gameCtx` is the game's 2D context (possibly null). -/
def debugInit (gameCtx : Option Ctx) (game : GameSnapshot) : Debug :=
  { game := game, sprite := false, context := gameCtx, font := "14px Courier",
    columnWidth := 100, lineHeight := 16, renderShadow := true,
    currentX := 0, currentY := 0, currentColor := "", currentAlpha := 1 }

/-- Defaulting of an optional numeric argument: `if (typeof x !== 'number') x = 0`. -/
def numOrZero (x : Option ℚ) : ℚ := x.getD 0

/-- Defaulting of an optional string argument: `s = s || dflt` (both
`undefined` and the empty string are falsy). -/
def strOr (s : Option String) (dflt : String) : String :=
  match s with
  | none => dflt
  | some s => if s = "" then dflt else s

/-- Result of a call that can throw: `Except.error d` models a JS `TypeError`
thrown with the renderer in state `d` at that moment. -/
abbrev DRes := Except Debug Debug

namespace Debug

/-- Apply an operation to the context if it is present (used only on code
paths where the source has already established the context is non-null). -/
def modifyCtx (d : Debug) (f : Ctx → Ctx) : Debug :=
  match d.context with
  | none => d
  | some c => { d with context := some (f c) }

/-- Model of `Debug#start(x, y, color, columnWidth)`. -/
def start (d : Debug) (x y : Option ℚ) (color : Option String) (columnWidth : Option ℚ) : Debug :=
  match d.context with
  | none => d
  | some ctx =>
    let x := numOrZero x
    let y := numOrZero y
    let color := strOr color "rgb(255,255,255)"
    let columnWidth := columnWidth.getD 0
    let d := { d with currentX := x, currentY := y, currentColor := color,
                      currentAlpha := ctx.state.globalAlpha, columnWidth := columnWidth }
    let ctx := ctx.save
    let ctx := ctx.setTransformIdentity
    let ctx := ctx.setStrokeStyle color
    let ctx := ctx.setFillStyle color
    let ctx := ctx.setFont d.font
    let ctx := ctx.setGlobalAlpha 1
    { d with context := some ctx }

/-- Model of `Debug#stop()`.  The source has no `context === null` guard here:
`this.context.restore()` on a null context throws.  In the sprite (WebGL)
branch the call to `PIXI.updateWebGLTexture` is an external upload with no
effect on the 2D context and is not modelled. -/
def stop (d : Debug) : DRes :=
  match d.context with
  | none => Except.error d
  | some ctx =>
    let ctx := ctx.restore
    let ctx := ctx.setGlobalAlpha d.currentAlpha
    let ctx := if d.sprite then (ctx.setFillStyle "#ff0000").fillRect 0 0 400 400 else ctx
    Except.ok { d with context := some ctx }

/-- Model of `Debug#line(text, x, y)`. -/
def line (d : Debug) (text : String) (x y : Option ℚ) : Debug :=
  match d.context with
  | none => d
  | some ctx =>
    let d := match x with | some x => { d with currentX := x } | none => d
    let d := match y with | some y => { d with currentY := y } | none => d
    let ctx :=
      if d.renderShadow then
        (((ctx.setFillStyle "rgb(0,0,0)").fillText text (d.currentX + 1) (d.currentY + 1)).setFillStyle d.currentColor)
      else ctx
    let ctx := ctx.fillText text d.currentX d.currentY
    { d with context := some ctx, currentY := d.currentY + d.lineHeight }

/-- The `for` loop of `Debug#splitline`: one iteration per fragment, the
running `x` advancing by `columnWidth`. -/
def splitlineLoop (d : Debug) (ctx : Ctx) (x : ℚ) : List String → Ctx
  | [] => ctx
  | t :: ts =>
    let ctx :=
      if d.renderShadow then
        (((ctx.setFillStyle "rgb(0,0,0)").fillText t (x + 1) (d.currentY + 1)).setFillStyle d.currentColor)
      else ctx
    let ctx := ctx.fillText t x d.currentY
    splitlineLoop d ctx (x + d.columnWidth) ts

/-- Model of `Debug#splitline(...)`; `fragments` is the JS `arguments` list. -/
def splitline (d : Debug) (fragments : List String) : Debug :=
  match d.context with
  | none => d
  | some ctx =>
    let ctx := splitlineLoop d ctx d.currentX fragments
    { d with context := some ctx, currentY := d.currentY + d.lineHeight }

end Debug

/-- A `p2.Rectangle` shape as read by the renderer: physics-unit width,
height and vertex list. -/
structure RectShape where
  width : ℚ
  height : ℚ
  vertices : List (ℚ × ℚ)
deriving DecidableEq, Repr

/-- A `p2.Line` shape as read by the renderer. -/
structure LineShape where
  length : ℚ
deriving DecidableEq, Repr

/-- A `p2.Convex` shape as read by the renderer. -/
structure ConvexShape where
  vertices : List (ℚ × ℚ)
deriving DecidableEq, Repr

/-- A `p2.Circle` shape as read by the renderer. -/
structure CircleShape where
  radius : ℚ
deriving DecidableEq, Repr

/-- A physics shape as dispatched by `renderPhysicsBody`'s `instanceof`
chain; `other` is any p2 shape type matching none of the four checks
(e.g. `p2.Plane`, `p2.Capsule`, `p2.Particle`). -/
inductive PhysShape
  | rect (s : RectShape)
  | segment (s : LineShape)
  | convex (s : ConvexShape)
  | circle (s : CircleShape)
  | other
deriving DecidableEq, Repr

/-- A physics body as read by `renderPhysicsBody`: `body.data.position`,
`body.data.angle`, and the parallel arrays `shapes` / `shapeOffsets` /
`shapeAngles` zipped into one list. -/
structure PhysicsBodySnapshot where
  posX : ℚ
  posY : ℚ
  angle : ℚ
  shapes : List (PhysShape × (ℚ × ℚ) × ℚ)

namespace Debug

/-- The `for` loop of `renderShapeRectangle` / `renderShapeConvex`: one
`lineTo` per vertex after the first. -/
def polyLineLoop (p2pxi : ℚ → ℚ) (ctx : Ctx) : List (ℚ × ℚ) → Ctx
  | [] => ctx
  | p :: ps => polyLineLoop p2pxi (ctx.lineTo (p2pxi p.1) (p2pxi p.2)) ps

/-- Model of `Debug#renderShapeRectangle`.  The source has no
`context === null` guard; with a null context the first property access
throws.  `points[0][0]` on an empty vertex list also throws (after the
path has been opened and the transform set, as in the source). -/
def renderShapeRectangle (d : Debug) (x y bodyAngle : ℚ) (shape : RectShape)
    (offset : ℚ × ℚ) (angle : ℚ) : DRes :=
  match d.context with
  | none => Except.error d
  | some ctx =>
    let ctx := ctx.beginPath
    let ctx := ctx.save
    let ctx := ctx.translate (x + d.game.p2pxi offset.1) (y + d.game.p2pxi offset.2)
    let ctx := ctx.rotate (bodyAngle + angle)
    match shape.vertices with
    | [] => Except.error { d with context := some ctx }
    | p :: ps =>
      let ctx := ctx.moveTo (d.game.p2pxi p.1) (d.game.p2pxi p.2)
      let ctx := polyLineLoop d.game.p2pxi ctx ps
      let ctx := ctx.closePath
      let ctx := ctx.stroke
      let ctx := ctx.restore
      Except.ok { d with context := some ctx }

/-- Model of `Debug#renderShapeLine`.  Note the source translates to
`(x, y)` only: unlike its three siblings it never reads `offset`. -/
def renderShapeLine (d : Debug) (x y bodyAngle : ℚ) (shape : LineShape)
    (offset : ℚ × ℚ) (angle : ℚ) : DRes :=
  match d.context with
  | none => Except.error d
  | some ctx =>
    let _ := offset
    let ctx := ctx.beginPath
    let ctx := ctx.save
    let ctx := ctx.translate x y
    let ctx := ctx.rotate (bodyAngle + angle)
    let ctx := ctx.setLineWidth (1/2)
    let ctx := ctx.moveTo 0 0
    let ctx := ctx.lineTo (d.game.p2px shape.length) 0
    let ctx := ctx.closePath
    let ctx := ctx.stroke
    let ctx := ctx.restore
    Except.ok { d with context := some ctx }

/-- Model of `Debug#renderShapeConvex`. -/
def renderShapeConvex (d : Debug) (x y bodyAngle : ℚ) (shape : ConvexShape)
    (offset : ℚ × ℚ) (angle : ℚ) : DRes :=
  match d.context with
  | none => Except.error d
  | some ctx =>
    let ctx := ctx.beginPath
    let ctx := ctx.save
    let ctx := ctx.translate (x + d.game.p2pxi offset.1) (y + d.game.p2pxi offset.2)
    let ctx := ctx.rotate (bodyAngle + angle)
    match shape.vertices with
    | [] => Except.error { d with context := some ctx }
    | p :: ps =>
      let ctx := ctx.moveTo (d.game.p2pxi p.1) (d.game.p2pxi p.2)
      let ctx := polyLineLoop d.game.p2pxi ctx ps
      let ctx := ctx.closePath
      let ctx := ctx.stroke
      let ctx := ctx.restore
      Except.ok { d with context := some ctx }

/-- Model of `Debug#renderShapeCircle` (no rotation: the source never calls
`rotate` here). -/
def renderShapeCircle (d : Debug) (x y bodyAngle : ℚ) (shape : CircleShape)
    (offset : ℚ × ℚ) (angle : ℚ) : DRes :=
  match d.context with
  | none => Except.error d
  | some ctx =>
    let _ := bodyAngle
    let _ := angle
    let ctx := ctx.beginPath
    let ctx := ctx.save
    let ctx := ctx.translate (x + d.game.p2pxi offset.1) (y + d.game.p2pxi offset.2)
    let ctx := ctx.arc 0 0 (d.game.p2px shape.radius) (AngleVal.rad 0) AngleVal.twoPi false
    let ctx := ctx.closePath
    let ctx := ctx.stroke
    let ctx := ctx.restore
    Except.ok { d with context := some ctx }

/-- The `instanceof` dispatch inside `renderPhysicsBody`'s loop; an
unrecognized shape type matches no branch and is skipped. -/
def renderShapeDispatch (d : Debug) (x y angle : ℚ) :
    PhysShape × (ℚ × ℚ) × ℚ → DRes
  | (PhysShape.rect s, off, a) => d.renderShapeRectangle x y angle s off a
  | (PhysShape.segment s, off, a) => d.renderShapeLine x y angle s off a
  | (PhysShape.convex s, off, a) => d.renderShapeConvex x y angle s off a
  | (PhysShape.circle s, off, a) => d.renderShapeCircle x y angle s off a
  | (PhysShape.other, _, _) => Except.ok d

/-- The `while (i--)` loop of `renderPhysicsBody`; it is applied to the
reversed shape list, because `i` counts down from `shapes.length - 1`. -/
def renderShapesLoop (x y angle : ℚ) : Debug → List (PhysShape × (ℚ × ℚ) × ℚ) → DRes
  | d, [] => Except.ok d
  | d, s :: rest =>
    match renderShapeDispatch d x y angle s with
    | Except.error e => Except.error e
    | Except.ok d => renderShapesLoop x y angle d rest

/-- Model of `Debug#renderPhysicsBody(body, color)`. -/
def renderPhysicsBody (d : Debug) (body : Option PhysicsBodySnapshot)
    (color : Option String) : DRes :=
  match d.context with
  | none => Except.ok d
  | some _ =>
    let c := strOr color "rgb(255,255,255)"
    let d := d.start (some 0) (some 0) (some c) none
    match body with
    | none => Except.error d
    | some b =>
      let x := d.game.p2pxi b.posX - d.game.cameraViewX
      let y := d.game.p2pxi b.posY - d.game.cameraViewY
      match renderShapesLoop x y b.angle d b.shapes.reverse with
      | Except.error e => Except.error e
      | Except.ok d => d.stop

end Debug

/-- Decimal rendering of a rational for string concatenation; the exact
characters are out of the spec's scope (§1) and no claim depends on them. -/
def numStr (q : ℚ) : String := toString q

/-- Rendering of a boolean for string concatenation (`"true"` / `"false"`,
as JS coercion produces). -/
def boolStr (b : Bool) : String := toString b

/-- Model of `Number.prototype.toFixed`; the spec excludes exact numeric
formatting (§1), so the digit count is ignored and the rational is rendered
plainly.  No claim depends on the resulting characters. -/
def toFixedStr (q : ℚ) (digits : ℕ) : String :=
  let _ := digits
  toString q

/-- A `Phaser.Sound` as read by `renderSoundInfo`; `touchLocked` models the
read `sound.game.sound.touchLocked`, `markerStart`/`markerStop` the reads
`sound.markers[sound.currentMarker].start` / `.stop`. -/
structure SoundSnapshot where
  key : String
  touchLocked : Bool
  pendingPlayback : Bool
  isDecoded : Bool
  isDecoding : Bool
  totalDuration : ℚ
  isPlaying : Bool
  currentTime : ℚ
  volume : ℚ
  mute : Bool
  usingWebAudio : Bool
  usingAudioTag : Bool
  currentMarker : String
  markerStart : ℚ
  markerStop : ℚ
  duration : ℚ
  position : ℚ

/-- A `Phaser.Camera` as read by `renderCameraInfo`. -/
structure CameraSnapshot where
  width : ℚ
  height : ℚ
  x : ℚ
  y : ℚ
  boundsX : ℚ
  boundsY : ℚ
  boundsW : ℚ
  boundsH : ℚ
  viewX : ℚ
  viewY : ℚ
  viewW : ℚ
  viewH : ℚ

/-- A `Phaser.Pointer` as read by `renderPointer`. -/
structure PointerSnapshot where
  x : ℚ
  y : ℚ
  circleRadius : ℚ
  active : Bool
  isDown : Bool
  isUp : Bool
  positionDownX : ℚ
  positionDownY : ℚ
  posX : ℚ
  posY : ℚ
  id : ℚ
  worldX : ℚ
  worldY : ℚ
  duration : ℚ

/-- A `Phaser.Sprite` as read by the sprite formatters; method-call results
(`input.pointerX()`, `getBounds()`, …) are modelled as stored fields. -/
structure SpriteSnapshot where
  width : ℚ
  height : ℚ
  anchorX : ℚ
  anchorY : ℚ
  x : ℚ
  y : ℚ
  angle : ℚ
  rotation : ℚ
  visible : Bool
  inCamera : Bool
  name : String
  positionX : ℚ
  positionY : ℚ
  worldX : ℚ
  worldY : ℚ
  inputPointerX : ℚ
  inputPointerY : ℚ
  inputPointerOver : Bool
  inputOverDuration : ℚ
  inputPointerDown : Bool
  inputDownDuration : ℚ
  inputJustOver : Bool
  inputJustOut : Bool
  boundsX : ℚ
  boundsY : ℚ
  boundsW : ℚ
  boundsH : ℚ
  bodyX : ℚ
  bodyY : ℚ

/-- A `Phaser.Key` as read by `renderKey`. -/
structure KeySnapshot where
  keyCode : ℚ
  isDown : Bool
  justPressed : Bool
  justReleased : Bool
  timeDown : ℚ
  duration : ℚ

/-- A `Phaser.Line` as read by `renderLine` / `renderLineInfo`. -/
structure LineGeom where
  startX : ℚ
  startY : ℚ
  endX : ℚ
  endY : ℚ
  length : ℚ
  angle : ℚ
deriving DecidableEq, Repr

/-- A `Phaser.Point`. -/
structure PointGeom where
  x : ℚ
  y : ℚ
deriving DecidableEq, Repr

/-- A `Phaser.Rectangle`. -/
structure RectGeom where
  x : ℚ
  y : ℚ
  width : ℚ
  height : ℚ
deriving DecidableEq, Repr

/-- A `Phaser.Circle`. -/
structure CircleGeom where
  x : ℚ
  y : ℚ
  radius : ℚ
deriving DecidableEq, Repr

namespace Debug

/-- Model of `Debug#renderSoundInfo(sound, x, y, color)`.  A null `sound`
throws at the first field access (`sound.key`), after `start` has run. -/
def renderSoundInfo (d : Debug) (sound : Option SoundSnapshot) (x y : Option ℚ)
    (color : Option String) : DRes :=
  match d.context with
  | none => Except.ok d
  | some _ =>
    let c := strOr color "rgb(255,255,255)"
    let d := d.start x y (some c) none
    match sound with
    | none => Except.error d
    | some s =>
      let d := d.line ("Sound: " ++ s.key ++ " Locked: " ++ boolStr s.touchLocked) none none
      let d := d.line ("Is Ready?: " ++ boolStr (d.game.isSoundReady s.key) ++ " Pending Playback: " ++ boolStr s.pendingPlayback) none none
      let d := d.line ("Decoded: " ++ boolStr s.isDecoded ++ " Decoding: " ++ boolStr s.isDecoding) none none
      let d := d.line ("Total Duration: " ++ numStr s.totalDuration ++ " Playing: " ++ boolStr s.isPlaying) none none
      let d := d.line ("Time: " ++ numStr s.currentTime) none none
      let d := d.line ("Volume: " ++ numStr s.volume ++ " Muted: " ++ boolStr s.mute) none none
      let d := d.line ("WebAudio: " ++ boolStr s.usingWebAudio ++ " Audio: " ++ boolStr s.usingAudioTag) none none
      let d :=
        if s.currentMarker ≠ "" then
          let d := d.line ("Marker: " ++ s.currentMarker ++ " Duration: " ++ numStr s.duration) none none
          let d := d.line ("Start: " ++ numStr s.markerStart ++ " Stop: " ++ numStr s.markerStop) none none
          d.line ("Position: " ++ numStr s.position) none none
        else d
      d.stop

/-- Model of `Debug#renderCameraInfo(camera, x, y, color)`. -/
def renderCameraInfo (d : Debug) (camera : Option CameraSnapshot) (x y : Option ℚ)
    (color : Option String) : DRes :=
  match d.context with
  | none => Except.ok d
  | some _ =>
    let c := strOr color "rgb(255,255,255)"
    let d := d.start x y (some c) none
    match camera with
    | none => Except.error d
    | some cam =>
      let d := d.line ("Camera (" ++ numStr cam.width ++ " x " ++ numStr cam.height ++ ")") none none
      let d := d.line ("X: " ++ numStr cam.x ++ " Y: " ++ numStr cam.y) none none
      let d := d.line ("Bounds x: " ++ numStr cam.boundsX ++ " Y: " ++ numStr cam.boundsY ++ " w: " ++ numStr cam.boundsW ++ " h: " ++ numStr cam.boundsH) none none
      let d := d.line ("View x: " ++ numStr cam.viewX ++ " Y: " ++ numStr cam.viewY ++ " w: " ++ numStr cam.viewW ++ " h: " ++ numStr cam.viewH) none none
      d.stop

/-- Model of `Debug#renderPointer(pointer, hideIfUp, downColor, upColor, color)`;
this is the one formatter that explicitly tolerates a null snapshot
(`this.context === null || pointer == null`). -/
def renderPointer (d : Debug) (pointer : Option PointerSnapshot) (hideIfUp : Option Bool)
    (downColor upColor color : Option String) : DRes :=
  match d.context, pointer with
  | none, _ => Except.ok d
  | some _, none => Except.ok d
  | some _, some p =>
    let hideIfUp := hideIfUp.getD false
    let downColor := strOr downColor "rgba(0,255,0,0.5)"
    let upColor := strOr upColor "rgba(255,0,0,0.5)"
    let c := strOr color "rgb(255,255,255)"
    if hideIfUp && p.isUp then Except.ok d
    else
      let d := d.start (some p.x) (some (p.y - 100)) (some c) none
      let d := d.modifyCtx Ctx.beginPath
      let d := d.modifyCtx (fun c2 => c2.arc p.x p.y p.circleRadius (AngleVal.rad 0) AngleVal.twoPi false)
      let d := d.modifyCtx (fun c2 => if p.active then c2.setFillStyle downColor else c2.setFillStyle upColor)
      let d := d.modifyCtx Ctx.fill
      let d := d.modifyCtx Ctx.closePath
      let d := d.modifyCtx Ctx.beginPath
      let d := d.modifyCtx (fun c2 => c2.moveTo p.positionDownX p.positionDownY)
      let d := d.modifyCtx (fun c2 => c2.lineTo p.posX p.posY)
      let d := d.modifyCtx (fun c2 => c2.setLineWidth 2)
      let d := d.modifyCtx Ctx.stroke
      let d := d.modifyCtx Ctx.closePath
      let d := d.line ("ID: " ++ numStr p.id ++ " Active: " ++ boolStr p.active) none none
      let d := d.line ("World X: " ++ numStr p.worldX ++ " World Y: " ++ numStr p.worldY) none none
      let d := d.line ("Screen X: " ++ numStr p.x ++ " Screen Y: " ++ numStr p.y) none none
      let d := d.line ("Duration: " ++ numStr p.duration ++ " ms") none none
      let d := d.line ("is Down: " ++ boolStr p.isDown ++ " is Up: " ++ boolStr p.isUp) none none
      d.stop

/-- Model of `Debug#renderSpriteInputInfo(sprite, x, y, color)`. -/
def renderSpriteInputInfo (d : Debug) (sprite : Option SpriteSnapshot) (x y : Option ℚ)
    (color : Option String) : DRes :=
  match d.context with
  | none => Except.ok d
  | some _ =>
    let c := strOr color "rgb(255,255,255)"
    let d := d.start x y (some c) none
    match sprite with
    | none => Except.error d
    | some s =>
      let d := d.line ("Sprite Input: (" ++ numStr s.width ++ " x " ++ numStr s.height ++ ")") none none
      let d := d.line ("x: " ++ toFixedStr s.inputPointerX 1 ++ " y: " ++ toFixedStr s.inputPointerY 1) none none
      let d := d.line ("over: " ++ boolStr s.inputPointerOver ++ " duration: " ++ toFixedStr s.inputOverDuration 0) none none
      let d := d.line ("down: " ++ boolStr s.inputPointerDown ++ " duration: " ++ toFixedStr s.inputDownDuration 0) none none
      let d := d.line ("just over: " ++ boolStr s.inputJustOver ++ " just out: " ++ boolStr s.inputJustOut) none none
      d.stop

/-- Model of `Debug#renderKey(key, x, y, color)`; note the bracket is opened
with `columnWidth = 150`. -/
def renderKey (d : Debug) (key : Option KeySnapshot) (x y : Option ℚ)
    (color : Option String) : DRes :=
  match d.context with
  | none => Except.ok d
  | some _ =>
    let c := strOr color "rgb(255,255,255)"
    let d := d.start x y (some c) (some 150)
    match key with
    | none => Except.error d
    | some k =>
      let d := d.splitline ["Key:", numStr k.keyCode, "isDown:", boolStr k.isDown]
      let d := d.splitline ["justPressed:", boolStr k.justPressed, "justReleased:", boolStr k.justReleased]
      let d := d.splitline ["Time Down:", toFixedStr k.timeDown 0, "duration:", toFixedStr k.duration 0]
      d.stop

/-- Model of `Debug#renderInputInfo(x, y, color)` (the default color here is
`rgb(255,255,0)`; note the source prints `scale.x` twice). -/
def renderInputInfo (d : Debug) (x y : Option ℚ) (color : Option String) : DRes :=
  match d.context with
  | none => Except.ok d
  | some _ =>
    let c := strOr color "rgb(255,255,0)"
    let d := d.start x y (some c) none
    let d := d.line "Input" none none
    let d := d.line ("X: " ++ numStr d.game.inputX ++ " Y: " ++ numStr d.game.inputY) none none
    let d := d.line ("World X: " ++ numStr d.game.inputWorldX ++ " World Y: " ++ numStr d.game.inputWorldY) none none
    let d := d.line ("Scale X: " ++ toFixedStr d.game.inputScaleX 1 ++ " Scale Y: " ++ toFixedStr d.game.inputScaleX 1) none none
    let d := d.line ("Screen X: " ++ numStr d.game.screenX ++ " Screen Y: " ++ numStr d.game.screenY) none none
    d.stop

/-- Model of `Debug#renderRectangle(rect, color, filled)`. -/
def renderRectangle (d : Debug) (rect : Option RectGeom) (color : Option String)
    (filled : Option Bool) : DRes :=
  match d.context with
  | none => Except.ok d
  | some _ =>
    let filled := filled.getD true
    let c := strOr color "rgba(0,255,0,0.3)"
    let d := d.start none none none none
    if filled then
      let d := d.modifyCtx (fun c2 => c2.setFillStyle c)
      match rect with
      | none => Except.error d
      | some r => (d.modifyCtx (fun c2 => c2.fillRect r.x r.y r.width r.height)).stop
    else
      let d := d.modifyCtx (fun c2 => c2.setStrokeStyle c)
      match rect with
      | none => Except.error d
      | some r => (d.modifyCtx (fun c2 => c2.strokeRect r.x r.y r.width r.height)).stop

/-- Model of `Debug#renderSpriteBounds(sprite, color, filled)`.  There is no
surface check of its own: the sprite's bounds are computed first (throwing on
a null sprite), then `renderRectangle` performs the check. -/
def renderSpriteBounds (d : Debug) (sprite : Option SpriteSnapshot)
    (color : Option String) (filled : Option Bool) : DRes :=
  match sprite with
  | none => Except.error d
  | some s =>
    d.renderRectangle (some { x := s.boundsX, y := s.boundsY, width := s.boundsW, height := s.boundsH }) color filled

/-- Model of `Debug#renderSpriteInfo(sprite, x, y, color)`. -/
def renderSpriteInfo (d : Debug) (sprite : Option SpriteSnapshot) (x y : Option ℚ)
    (color : Option String) : DRes :=
  match d.context with
  | none => Except.ok d
  | some _ =>
    let c := strOr color "rgb(255, 255, 255)"
    let d := d.start x y (some c) none
    match sprite with
    | none => Except.error d
    | some s =>
      let d := d.line ("Sprite: " ++ " (" ++ numStr s.width ++ " x " ++ numStr s.height ++ ") anchor: " ++ numStr s.anchorX ++ " x " ++ numStr s.anchorY) none none
      let d := d.line ("x: " ++ toFixedStr s.x 1 ++ " y: " ++ toFixedStr s.y 1) none none
      let d := d.line ("angle: " ++ toFixedStr s.angle 1 ++ " rotation: " ++ toFixedStr s.rotation 1) none none
      let d := d.line ("visible: " ++ boolStr s.visible ++ " in camera: " ++ boolStr s.inCamera) none none
      d.stop

/-- Model of `Debug#renderSpriteCoords(sprite, x, y, color)`; the bracket is
opened with `columnWidth = 100`, and a falsy (empty) name is skipped. -/
def renderSpriteCoords (d : Debug) (sprite : Option SpriteSnapshot) (x y : Option ℚ)
    (color : Option String) : DRes :=
  match d.context with
  | none => Except.ok d
  | some _ =>
    let c := strOr color "rgb(255, 255, 255)"
    let d := d.start x y (some c) (some 100)
    match sprite with
    | none => Except.error d
    | some s =>
      let d := if s.name ≠ "" then d.line s.name none none else d
      let d := d.splitline ["x:", toFixedStr s.x 2, "y:", toFixedStr s.y 2]
      let d := d.splitline ["pos x:", toFixedStr s.positionX 2, "pos y:", toFixedStr s.positionY 2]
      let d := d.splitline ["world x:", toFixedStr s.worldX 2, "world y:", toFixedStr s.worldY 2]
      d.stop

/-- Model of `Debug#renderLine(line, color)`. -/
def renderLine (d : Debug) (ln : Option LineGeom) (color : Option String) : DRes :=
  match d.context with
  | none => Except.ok d
  | some _ =>
    let c := strOr color "rgb(255, 255, 255)"
    let d := d.start (some 0) (some 0) (some c) none
    let d := d.modifyCtx (fun c2 => c2.setLineWidth 1)
    let d := d.modifyCtx Ctx.beginPath
    match ln with
    | none => Except.error d
    | some l =>
      let d := d.modifyCtx (fun c2 => c2.moveTo (l.startX + 1/2) (l.startY + 1/2))
      let d := d.modifyCtx (fun c2 => c2.lineTo (l.endX + 1/2) (l.endY + 1/2))
      let d := d.modifyCtx Ctx.closePath
      let d := d.modifyCtx Ctx.stroke
      d.stop

/-- Model of `Debug#renderLineInfo(line, x, y, color)`; the bracket is opened
with `columnWidth = 80`. -/
def renderLineInfo (d : Debug) (ln : Option LineGeom) (x y : Option ℚ)
    (color : Option String) : DRes :=
  match d.context with
  | none => Except.ok d
  | some _ =>
    let c := strOr color "rgb(255, 255, 255)"
    let d := d.start x y (some c) (some 80)
    match ln with
    | none => Except.error d
    | some l =>
      let d := d.splitline ["start.x:", toFixedStr l.startX 2, "start.y:", toFixedStr l.startY 2]
      let d := d.splitline ["end.x:", toFixedStr l.endX 2, "end.y:", toFixedStr l.endY 2]
      let d := d.splitline ["length:", toFixedStr l.length 2, "angle:", numStr l.angle]
      d.stop

/-- Model of `Debug#renderPointInfo(point, x, y, color)`. -/
def renderPointInfo (d : Debug) (point : Option PointGeom) (x y : Option ℚ)
    (color : Option String) : DRes :=
  match d.context with
  | none => Except.ok d
  | some _ =>
    let c := strOr color "rgb(255, 255, 255)"
    let d := d.start x y (some c) none
    match point with
    | none => Except.error d
    | some p =>
      let d := d.line ("px: " ++ toFixedStr p.x 1 ++ " py: " ++ toFixedStr p.y 1) none none
      d.stop

/-- Model of `Debug#renderPixel(x, y, color)`. -/
def renderPixel (d : Debug) (x y : ℚ) (color : Option String) : DRes :=
  match d.context with
  | none => Except.ok d
  | some _ =>
    let c := strOr color "rgba(0,255,0,1)"
    let d := d.start none none none none
    let d := d.modifyCtx (fun c2 => c2.setFillStyle c)
    let d := d.modifyCtx (fun c2 => c2.fillRect x y 2 2)
    d.stop

/-- Model of `Debug#renderPoint(point, color)`. -/
def renderPoint (d : Debug) (point : Option PointGeom) (color : Option String) : DRes :=
  match d.context with
  | none => Except.ok d
  | some _ =>
    let c := strOr color "rgba(0,255,0,1)"
    let d := d.start none none none none
    let d := d.modifyCtx (fun c2 => c2.setFillStyle c)
    match point with
    | none => Except.error d
    | some p =>
      let d := d.modifyCtx (fun c2 => c2.fillRect p.x p.y 4 4)
      d.stop

/-- Model of `Debug#renderCircle(circle, color)`. -/
def renderCircle (d : Debug) (circle : Option CircleGeom) (color : Option String) : DRes :=
  match d.context with
  | none => Except.ok d
  | some _ =>
    let c := strOr color "rgba(0,255,0,0.3)"
    let d := d.start none none none none
    let d := d.modifyCtx Ctx.beginPath
    let d := d.modifyCtx (fun c2 => c2.setFillStyle c)
    match circle with
    | none => Except.error d
    | some cir =>
      let d := d.modifyCtx (fun c2 => c2.arc cir.x cir.y cir.radius (AngleVal.rad 0) AngleVal.twoPi false)
      let d := d.modifyCtx Ctx.fill
      let d := d.modifyCtx Ctx.closePath
      d.stop

/-- Model of `Debug#renderText(text, x, y, color, font)`. -/
def renderText (d : Debug) (text : String) (x y : ℚ) (color font : Option String) : DRes :=
  match d.context with
  | none => Except.ok d
  | some _ =>
    let c := strOr color "rgb(255,255,255)"
    let f := strOr font "16px Courier"
    let d := d.start none none none none
    let d := d.modifyCtx (fun c2 => c2.setFont f)
    let d := d.modifyCtx (fun c2 => c2.setFillStyle c)
    let d := d.modifyCtx (fun c2 => c2.fillText text x y)
    d.stop

/-- Model of `Debug#renderBodyInfo(sprite, x, y, color)`; the bracket is
opened with `columnWidth = 210`. -/
def renderBodyInfo (d : Debug) (sprite : Option SpriteSnapshot) (x y : Option ℚ)
    (color : Option String) : DRes :=
  match d.context with
  | none => Except.ok d
  | some _ =>
    let c := strOr color "rgb(255,255,255)"
    let d := d.start x y (some c) (some 210)
    match sprite with
    | none => Except.error d
    | some s =>
      let d := d.splitline ["x: " ++ toFixedStr s.bodyX 2, "y: " ++ toFixedStr s.bodyY 2,
                            "width: " ++ numStr s.width, "height: " ++ numStr s.height]
      d.stop

/-- Iterating `line(text)` over a list of texts, supplying no `x`/`y`
arguments: the "sequence of N calls" the layout claims quantify over. -/
def lineSeq (d : Debug) : List String → Debug
  | [] => d
  | t :: ts => lineSeq (d.line t none none) ts

end Debug

/-- Whether a trace entry is a text draw. -/
def isFillTextCmd : CanvasCmd → Bool
  | CanvasCmd.fillText _ _ _ _ _ _ => true
  | _ => false

/-- Number of text draws in a trace. -/
def countFillText (l : List CanvasCmd) : ℕ := (l.filter isFillTextCmd).length

/-- The x-positions of the text draws in a trace, in order. -/
def fillXs (l : List CanvasCmd) : List ℚ :=
  l.filterMap (fun cmd => match cmd with
    | CanvasCmd.fillText _ x _ _ _ _ => some x
    | _ => none)

/-- The trace of the renderer's context (empty when the context is null). -/
def traceOfD (d : Debug) : List CanvasCmd :=
  match d.context with
  | none => []
  | some c => c.trace

/-- The context operations `start` performs (given a non-null context). -/
def startCmds (color font : String) : List CanvasCmd :=
  [CanvasCmd.save, CanvasCmd.setTransformIdentity, CanvasCmd.setStrokeStyle color,
   CanvasCmd.setFillStyle color, CanvasCmd.setFont font, CanvasCmd.setGlobalAlpha 1]

/-- The context operations one `line` call performs: with shadows, a black
draw offset by one unit down-and-right followed by the draw in the bracket
color `c`; without shadows, a single draw in the ambient style `f`. -/
def lineCmdsF (shadow : Bool) (c font : String) (alpha : ℚ) (f : String)
    (t : String) (x y : ℚ) : List CanvasCmd :=
  if shadow then
    [CanvasCmd.setFillStyle "rgb(0,0,0)", CanvasCmd.fillText t (x + 1) (y + 1) "rgb(0,0,0)" font alpha,
     CanvasCmd.setFillStyle c, CanvasCmd.fillText t x y c font alpha]
  else
    [CanvasCmd.fillText t x y f font alpha]

/-- The context operations of a sequence of `line` calls starting at vertical
position `y`, each advancing by `lh`, all drawn at abscissa `x` in the
bracket color `c`. -/
def lineSeqCmds (shadow : Bool) (c font : String) (alpha x lh : ℚ) :
    ℚ → List String → List CanvasCmd
  | _, [] => []
  | y, t :: ts =>
    lineCmdsF shadow c font alpha c t x y ++ lineSeqCmds shadow c font alpha x lh (y + lh) ts

/-- The context operations of one `splitline` call: one (shadow +) fill draw
per fragment, the running abscissa advancing by `cw`; `f` is the ambient fill
style on entry (used by the shadowless draws until a shadow resets it to `c`). -/
def splitCmdsF (shadow : Bool) (c font : String) (alpha y cw : ℚ) :
    String → ℚ → List String → List CanvasCmd
  | _, _, [] => []
  | f, x, t :: ts =>
    (if shadow then
      [CanvasCmd.setFillStyle "rgb(0,0,0)", CanvasCmd.fillText t (x + 1) (y + 1) "rgb(0,0,0)" font alpha,
       CanvasCmd.setFillStyle c, CanvasCmd.fillText t x y c font alpha]
     else [CanvasCmd.fillText t x y f font alpha])
    ++ splitCmdsF shadow c font alpha y cw (if shadow then c else f) (x + cw) ts

/-- The ambient fill style left behind by a `splitline` over `ts` that
entered with fill style `f`. -/
def fillStyleAfterSplit (shadow : Bool) (c f : String) (ts : List String) : String :=
  match ts with
  | [] => f
  | _ :: _ => if shadow then c else f

namespace Debug

/-- Unfolding of `start` on a non-null context. -/
theorem start_spec (d : Debug) (ctx : Ctx) (x y : Option ℚ) (color : Option String)
    (cw : Option ℚ) (h : d.context = some ctx) :
    d.start x y color cw =
      { d with
        currentX := numOrZero x, currentY := numOrZero y,
        currentColor := strOr color "rgb(255,255,255)",
        currentAlpha := ctx.state.globalAlpha,
        columnWidth := cw.getD 0,
        context := some
          { state := { fillStyle := strOr color "rgb(255,255,255)",
                       strokeStyle := strOr color "rgb(255,255,255)",
                       font := d.font, globalAlpha := 1,
                       lineWidth := ctx.state.lineWidth, transform := [] },
            stack := ctx.state :: ctx.stack,
            trace := ctx.trace ++ startCmds (strOr color "rgb(255,255,255)") d.font } } := by
  simp [Debug.start, h, Ctx.save, Ctx.setTransformIdentity, Ctx.setStrokeStyle,
        Ctx.setFillStyle, Ctx.setFont, Ctx.setGlobalAlpha, startCmds, List.append_assoc]

/-- Unfolding of `line` (no explicit `x`/`y`) on a non-null context. -/
theorem line_spec (d : Debug) (ctx : Ctx) (t : String) (h : d.context = some ctx) :
    d.line t none none =
      { d with
        currentY := d.currentY + d.lineHeight,
        context := some
          { ctx with
            state := { ctx.state with
              fillStyle := if d.renderShadow then d.currentColor else ctx.state.fillStyle },
            trace := ctx.trace ++
              lineCmdsF d.renderShadow d.currentColor ctx.state.font ctx.state.globalAlpha
                ctx.state.fillStyle t d.currentX d.currentY } } := by
  cases hs : d.renderShadow <;>
    simp [Debug.line, h, hs, Ctx.setFillStyle, Ctx.fillText, Ctx.emit, lineCmdsF,
          List.append_assoc]

/-- Behaviour of a sequence of `line` calls inside a bracket (ambient fill
style equal to the cursor color, as `start` establishes): the cursor advances
by one line height per call and the trace grows by the per-line draws, the
i-th drawn at the vertical position before the i-th advance. -/
theorem lineSeq_bracket (ts : List String) :
    ∀ (d : Debug) (ctx : Ctx), d.context = some ctx →
    ctx.state.fillStyle = d.currentColor →
    d.lineSeq ts = { d with
      currentY := d.currentY + (ts.length : ℚ) * d.lineHeight,
      context := some { ctx with
        trace := ctx.trace ++
                 lineSeqCmds d.renderShadow d.currentColor ctx.state.font ctx.state.globalAlpha
                   d.currentX d.lineHeight d.currentY ts } } := by
  induction ts with
  | nil =>
    intro d ctx h hf
    simp only [Debug.lineSeq, lineSeqCmds, List.append_nil, List.length_nil, Nat.cast_zero,
               zero_mul, add_zero]
    rw [← h]
  | cons t ts ih =>
    intro d ctx h hf
    rw [Debug.lineSeq, line_spec d ctx t h]
    rw [ih _ _ rfl (by cases hs : d.renderShadow <;> simp [hs, hf])]
    obtain ⟨g, sp, co, fo, cw, lh, rs, cx, cy, cc, ca⟩ := d
    obtain ⟨⟨fs, ss, fon, ga, lw, tf⟩, stk, tr⟩ := ctx
    simp only at hf
    subst hf
    simp [lineSeqCmds, List.append_assoc]
    ring

end Debug

/-- Without shadows a `splitline` never changes the ambient fill style. -/
theorem fillStyleAfterSplit_false (c f : String) (ts : List String) :
    fillStyleAfterSplit false c f ts = f := by
  cases ts <;> simp [fillStyleAfterSplit]

/-- When the entry fill style already equals the cursor color, a `splitline`
leaves it unchanged. -/
theorem fillStyleAfterSplit_self (sh : Bool) (c : String) (ts : List String) :
    fillStyleAfterSplit sh c c ts = c := by
  cases ts <;> simp [fillStyleAfterSplit]

namespace Debug

/-- Behaviour of the `splitline` fragment loop: one (shadow +) fill draw per
fragment, the abscissa advancing by `columnWidth` between fragments, and no
change to any ambient state except possibly the fill style. -/
theorem splitlineLoop_spec (ts : List String) :
    ∀ (d : Debug) (ctx : Ctx) (x : ℚ),
    d.splitlineLoop ctx x ts = { ctx with
      state := { ctx.state with
        fillStyle := fillStyleAfterSplit d.renderShadow d.currentColor ctx.state.fillStyle ts },
      trace := ctx.trace ++
               splitCmdsF d.renderShadow d.currentColor ctx.state.font ctx.state.globalAlpha
                 d.currentY d.columnWidth ctx.state.fillStyle x ts } := by
  induction ts with
  | nil =>
    intro d ctx x
    simp [Debug.splitlineLoop, splitCmdsF, fillStyleAfterSplit]
  | cons t ts ih =>
    intro d ctx x
    cases hs : d.renderShadow
    · rw [Debug.splitlineLoop, hs]
      simp only [Bool.false_eq_true, if_false]
      rw [ih]
      simp [Ctx.fillText, Ctx.emit, hs, splitCmdsF, fillStyleAfterSplit,
            fillStyleAfterSplit_false, List.append_assoc]
      cases ts <;> rfl
    · rw [Debug.splitlineLoop, hs]
      simp only [if_true]
      rw [ih]
      simp [Ctx.fillText, Ctx.emit, Ctx.setFillStyle, hs, splitCmdsF, fillStyleAfterSplit,
            fillStyleAfterSplit_self, List.append_assoc]
      cases ts <;> rfl

/-- Unfolding of `splitline` on a non-null context. -/
theorem splitline_spec (d : Debug) (ctx : Ctx) (ts : List String)
    (h : d.context = some ctx) :
    d.splitline ts = { d with
      currentY := d.currentY + d.lineHeight,
      context := some { ctx with
        state := { ctx.state with
          fillStyle := fillStyleAfterSplit d.renderShadow d.currentColor ctx.state.fillStyle ts },
        trace := ctx.trace ++
                 splitCmdsF d.renderShadow d.currentColor ctx.state.font ctx.state.globalAlpha
                   d.currentY d.columnWidth ctx.state.fillStyle d.currentX ts } } := by
  simp [Debug.splitline, h, splitlineLoop_spec]

end Debug

/-- Text-draw counting distributes over trace concatenation. -/
theorem countFillText_append (a b : List CanvasCmd) :
    countFillText (a ++ b) = countFillText a + countFillText b := by
  simp [countFillText, List.filter_append]

/-- Text-draw counting on a cons cell. -/
theorem countFillText_cons (cmd : CanvasCmd) (l : List CanvasCmd) :
    countFillText (cmd :: l) = (if isFillTextCmd cmd then 1 else 0) + countFillText l := by
  cases h : isFillTextCmd cmd <;> simp [countFillText, List.filter_cons, h, Nat.add_comm]

/-- Draw-abscissa extraction distributes over trace concatenation. -/
theorem fillXs_append (a b : List CanvasCmd) :
    fillXs (a ++ b) = fillXs a ++ fillXs b := by
  simp [fillXs, List.filterMap_append]

/-- One `splitline` over `k` fragments emits exactly `2k` text draws with
shadows enabled, `k` without. -/
theorem splitCmdsF_count (sh : Bool) (c font : String) (alpha y cw : ℚ)
    (ts : List String) : ∀ (f : String) (x : ℚ),
    countFillText (splitCmdsF sh c font alpha y cw f x ts) =
      (if sh then 2 else 1) * ts.length := by
  induction ts with
  | nil => intro f x; simp [splitCmdsF, countFillText]
  | cons t ts ih =>
    intro f x
    cases sh <;>
      · simp only [splitCmdsF, Bool.false_eq_true, if_false, if_true, List.cons_append,
                   List.nil_append, countFillText_cons, ih, isFillTextCmd, List.length_cons]
        omega

/-- Each `line` call emits two text draws with shadows enabled, one without. -/
theorem lineCmdsF_count (sh : Bool) (c font : String) (alpha : ℚ) (f t : String) (x y : ℚ) :
    countFillText (lineCmdsF sh c font alpha f t x y) = if sh then 2 else 1 := by
  cases sh <;> simp [lineCmdsF, countFillText, isFillTextCmd]

namespace Debug

/-- Unfolding of `stop` on a non-null context. -/
theorem stop_spec (d : Debug) (ctx : Ctx) (h : d.context = some ctx) :
    d.stop = Except.ok { d with
      context := some
        (if d.sprite then
          (((ctx.restore).setGlobalAlpha d.currentAlpha).setFillStyle "#ff0000").fillRect 0 0 400 400
         else (ctx.restore).setGlobalAlpha d.currentAlpha) } := by
  simp [Debug.stop, h]

/-- Whatever the mode, a successful `stop` leaves the surface's global alpha
equal to the renderer's saved `currentAlpha`, and does not change
`currentAlpha` itself nor the cursor fields. -/
theorem stop_alpha (d : Debug) (ctx : Ctx) (h : d.context = some ctx) :
    ∃ ctx2, d.stop = Except.ok { d with context := some ctx2 } ∧
      ctx2.state.globalAlpha = d.currentAlpha := by
  rw [stop_spec d ctx h]
  refine ⟨_, rfl, ?_⟩
  cases d.sprite <;>
    cases hstk : ctx.stack <;>
      simp [Ctx.restore, Ctx.setGlobalAlpha, Ctx.setFillStyle, Ctx.fillRect, Ctx.emit, hstk]

end Debug

/-- The context operations of `renderShapeLine` (note: no use of the shape
offset, mirroring the source). -/
def shapeLineCmds (st : CtxState) (p2px : ℚ → ℚ) (x y bodyAngle angle len : ℚ) :
    List CanvasCmd :=
  [CanvasCmd.beginPath, CanvasCmd.save, CanvasCmd.translate x y,
   CanvasCmd.rotate (bodyAngle + angle), CanvasCmd.setLineWidth (1/2),
   CanvasCmd.moveTo 0 0, CanvasCmd.lineTo (p2px len) 0, CanvasCmd.closePath,
   CanvasCmd.stroke st.strokeStyle (1/2)
     (st.transform ++ [TransformOp.translate x y, TransformOp.rotate (bodyAngle + angle)]),
   CanvasCmd.restore]

/-- The context operations of `renderShapeCircle`. -/
def shapeCircleCmds (st : CtxState) (p2px p2pxi : ℚ → ℚ) (x y r : ℚ) (off : ℚ × ℚ) :
    List CanvasCmd :=
  [CanvasCmd.beginPath, CanvasCmd.save,
   CanvasCmd.translate (x + p2pxi off.1) (y + p2pxi off.2),
   CanvasCmd.arc 0 0 (p2px r) (AngleVal.rad 0) AngleVal.twoPi false, CanvasCmd.closePath,
   CanvasCmd.stroke st.strokeStyle st.lineWidth
     (st.transform ++ [TransformOp.translate (x + p2pxi off.1) (y + p2pxi off.2)]),
   CanvasCmd.restore]

/-- The context operations of `renderShapeRectangle` / `renderShapeConvex` on
a vertex list `p :: ps`. -/
def shapePolyCmds (st : CtxState) (p2pxi : ℚ → ℚ) (x y bodyAngle angle : ℚ)
    (off : ℚ × ℚ) (p : ℚ × ℚ) (ps : List (ℚ × ℚ)) : List CanvasCmd :=
  [CanvasCmd.beginPath, CanvasCmd.save,
   CanvasCmd.translate (x + p2pxi off.1) (y + p2pxi off.2),
   CanvasCmd.rotate (bodyAngle + angle),
   CanvasCmd.moveTo (p2pxi p.1) (p2pxi p.2)] ++
  ps.map (fun q => CanvasCmd.lineTo (p2pxi q.1) (p2pxi q.2)) ++
  [CanvasCmd.closePath,
   CanvasCmd.stroke st.strokeStyle st.lineWidth
     (st.transform ++ [TransformOp.translate (x + p2pxi off.1) (y + p2pxi off.2),
                       TransformOp.rotate (bodyAngle + angle)]),
   CanvasCmd.restore]

namespace Debug

/-- The `lineTo` loop only appends to the trace. -/
theorem polyLineLoop_spec (ps : List (ℚ × ℚ)) : ∀ (f : ℚ → ℚ) (ctx : Ctx),
    polyLineLoop f ctx ps =
      { ctx with trace := ctx.trace ++ ps.map (fun q => CanvasCmd.lineTo (f q.1) (f q.2)) } := by
  induction ps with
  | nil => intro f ctx; simp [polyLineLoop]
  | cons p ps ih => intro f ctx; rw [polyLineLoop, ih]; simp [Ctx.lineTo, Ctx.emit]

/-- Behaviour of `renderShapeLine` on a non-null context: a save/restore
scoped trace extension, everything else (ambient state, stack, cursor)
unchanged. -/
theorem renderShapeLine_spec (d : Debug) (ctx : Ctx) (x y ba : ℚ) (s : LineShape)
    (off : ℚ × ℚ) (a : ℚ) (h : d.context = some ctx) :
    d.renderShapeLine x y ba s off a =
      Except.ok { d with
        context := some
          { ctx with
            trace := ctx.trace ++ shapeLineCmds ctx.state d.game.p2px x y ba a s.length } } := by
  simp [Debug.renderShapeLine, h, Ctx.beginPath, Ctx.save, Ctx.translate, Ctx.rotate,
        Ctx.setLineWidth, Ctx.moveTo, Ctx.lineTo, Ctx.closePath, Ctx.stroke, Ctx.restore,
        Ctx.emit, shapeLineCmds, List.append_assoc]

/-- Behaviour of `renderShapeCircle` on a non-null context. -/
theorem renderShapeCircle_spec (d : Debug) (ctx : Ctx) (x y ba : ℚ) (s : CircleShape)
    (off : ℚ × ℚ) (a : ℚ) (h : d.context = some ctx) :
    d.renderShapeCircle x y ba s off a =
      Except.ok { d with
        context := some
          { ctx with
            trace := ctx.trace ++ shapeCircleCmds ctx.state d.game.p2px d.game.p2pxi x y s.radius off } } := by
  simp [Debug.renderShapeCircle, h, Ctx.beginPath, Ctx.save, Ctx.translate, Ctx.arc,
        Ctx.closePath, Ctx.stroke, Ctx.restore, Ctx.emit, shapeCircleCmds, List.append_assoc]

/-- Behaviour of `renderShapeRectangle` on a non-null context and a
non-empty vertex list. -/
theorem renderShapeRectangle_spec (d : Debug) (ctx : Ctx) (x y ba : ℚ) (s : RectShape)
    (off : ℚ × ℚ) (a : ℚ) (p : ℚ × ℚ) (ps : List (ℚ × ℚ))
    (h : d.context = some ctx) (hv : s.vertices = p :: ps) :
    d.renderShapeRectangle x y ba s off a =
      Except.ok { d with
        context := some
          { ctx with
            trace := ctx.trace ++ shapePolyCmds ctx.state d.game.p2pxi x y ba a off p ps } } := by
  simp [Debug.renderShapeRectangle, h, hv, Ctx.beginPath, Ctx.save, Ctx.translate, Ctx.rotate,
        Ctx.moveTo, Ctx.closePath, Ctx.stroke, Ctx.restore, Ctx.emit, polyLineLoop_spec,
        shapePolyCmds, List.append_assoc]

/-- Behaviour of `renderShapeConvex` on a non-null context and a non-empty
vertex list. -/
theorem renderShapeConvex_spec (d : Debug) (ctx : Ctx) (x y ba : ℚ) (s : ConvexShape)
    (off : ℚ × ℚ) (a : ℚ) (p : ℚ × ℚ) (ps : List (ℚ × ℚ))
    (h : d.context = some ctx) (hv : s.vertices = p :: ps) :
    d.renderShapeConvex x y ba s off a =
      Except.ok { d with
        context := some
          { ctx with
            trace := ctx.trace ++ shapePolyCmds ctx.state d.game.p2pxi x y ba a off p ps } } := by
  simp [Debug.renderShapeConvex, h, hv, Ctx.beginPath, Ctx.save, Ctx.translate, Ctx.rotate,
        Ctx.moveTo, Ctx.closePath, Ctx.stroke, Ctx.restore, Ctx.emit, polyLineLoop_spec,
        shapePolyCmds, List.append_assoc]

end Debug

/-- Whether a call result is a thrown exception. -/
def resIsError (r : DRes) : Bool :=
  match r with
  | Except.error _ => true
  | Except.ok _ => false

/-- The trace of a successful call's context (for concrete evaluations). -/
def traceOfRes (r : DRes) : Option (List CanvasCmd) :=
  match r with
  | Except.ok d => some (traceOfD d)
  | Except.error _ => none

/-- The ambient fill style of a successful call's context. -/
def fillStyleOfRes (r : DRes) : Option String :=
  match r with
  | Except.ok d =>
    match d.context with
    | some c => some c.state.fillStyle
    | none => none
  | Except.error _ => none

/-- A concrete drawing surface in some mid-frame ambient state (fill style
"blue", stroke "green", global alpha 3 — deliberately not 1, so alpha
restoration is observable). -/
def ctx0 : Ctx :=
  { state := { fillStyle := "blue", strokeStyle := "green", font := "10px serif",
               globalAlpha := 3, lineWidth := 1, transform := [] },
    stack := [], trace := [] }

/-- A concrete snapshot of the game-side inputs, with the standard Phaser
physics scale (20 px per meter, inverted for `p2pxi`). -/
def gameStub : GameSnapshot :=
  { p2px := fun v => 20 * v, p2pxi := fun v => -20 * v,
    isSoundReady := fun _ => true,
    inputX := 0, inputY := 0, inputWorldX := 0, inputWorldY := 0, inputScaleX := 1,
    screenX := 0, screenY := 0, cameraViewX := 0, cameraViewY := 0 }

/-- A renderer constructed in CANVAS mode over `ctx0`. -/
def dCanvas : Debug := debugInit (some ctx0) gameStub

/-- A renderer whose drawing surface is unavailable (null context). -/
def dNull : Debug := debugInit none gameStub

/-- A renderer in the offscreen-sprite (WebGL) mode whose surface is in the
ambient state `ctx0`. -/
def dSprite : Debug := { dCanvas with sprite := true }

/-- An `Idle` renderer state: a fresh CANVAS-mode renderer after one
complete (empty) bracket, so no `start` is currently open. -/
def dIdle : Debug := ((dCanvas.start none none none none).stop).toOption.getD dCanvas

/-- An `Idle` renderer whose cursor sits at `currentX = 5` with the default
`columnWidth = 100` and a set cursor color. -/
def dX5 : Debug := { dCanvas with currentX := 5, currentColor := "white" }

/-- A physics body at the origin with no shapes. -/
def bodyZero : PhysicsBodySnapshot :=
  { posX := 0, posY := 0, angle := 0, shapes := [] }

/-- Claim C1: for every bracket opened by `start(x0, y0, color, columnWidth)`
with a non-null context, after `N` calls to `line(text)` that supply no `x`
or `y` arguments, `currentY` equals `y0 + N * lineHeight`, and the trace
grows by the per-line draw commands, the i-th line drawn at the cursor
position current before that call's advance (encoded by `lineSeqCmds`, which
draws the i-th text at abscissa `x0` and ordinate `y0 + i * lineHeight`). -/
theorem C1_line_cursor_advance (d : Debug) (ctx : Ctx) (x0 y0 : ℚ)
    (color : Option String) (cw : Option ℚ) (ts : List String)
    (h : d.context = some ctx) :
    ((d.start (some x0) (some y0) color cw).lineSeq ts).currentY
        = y0 + (ts.length : ℚ) * d.lineHeight ∧
    ∃ ctx2, ((d.start (some x0) (some y0) color cw).lineSeq ts).context = some ctx2 ∧
      ctx2.trace = ctx.trace ++ startCmds (strOr color "rgb(255,255,255)") d.font ++
        lineSeqCmds d.renderShadow (strOr color "rgb(255,255,255)") d.font 1
          x0 d.lineHeight y0 ts := by
  rw [Debug.start_spec d ctx (some x0) (some y0) color cw h]
  rw [Debug.lineSeq_bracket ts _ _ rfl rfl]
  refine ⟨by simp [numOrZero], ⟨_, rfl, ?_⟩⟩
  simp [numOrZero, List.append_assoc]

/-- Witness for C1: the concrete renderer `dCanvas`, a bracket at
`(10, 20)`, and two `line` calls land the cursor at `20 + 2 * 16 = 52`. -/
theorem C1_line_cursor_advance_witness :
    dCanvas.context = some ctx0 ∧
    ((dCanvas.start (some 10) (some 20) (some "rgb(1,2,3)") none).lineSeq
        ["hello", "world"]).currentY
      = 20 + ((["hello", "world"].length : ℕ) : ℚ) * dCanvas.lineHeight :=
  ⟨rfl, (C1_line_cursor_advance dCanvas ctx0 10 20 (some "rgb(1,2,3)") none
    ["hello", "world"] rfl).1⟩

/-- Claim C2: a `splitline` with `k` fragments inside a bracket emits exactly
`k` shadow+fill text-draw pairs when `renderShadow` is true (`k` fill-only
draws when false), the i-th fragment drawn at `x0 + i * columnWidth`
(encoded by `splitCmdsF`, whose running abscissa starts at `x0` and advances
by `cw` per fragment), and `currentY` advances by exactly one `lineHeight`
regardless of `k`. -/
theorem C2_splitline_columns (d : Debug) (ctx : Ctx) (x0 y0 cw : ℚ)
    (color : Option String) (ts : List String) (h : d.context = some ctx) :
    ((d.start (some x0) (some y0) color (some cw)).splitline ts).currentY
        = y0 + d.lineHeight ∧
    countFillText (splitCmdsF d.renderShadow (strOr color "rgb(255,255,255)") d.font 1
        y0 cw (strOr color "rgb(255,255,255)") x0 ts)
      = (if d.renderShadow then 2 else 1) * ts.length ∧
    ∃ ctx2, ((d.start (some x0) (some y0) color (some cw)).splitline ts).context = some ctx2 ∧
      ctx2.trace = ctx.trace ++ startCmds (strOr color "rgb(255,255,255)") d.font ++
        splitCmdsF d.renderShadow (strOr color "rgb(255,255,255)") d.font 1
          y0 cw (strOr color "rgb(255,255,255)") x0 ts := by
  rw [Debug.start_spec d ctx (some x0) (some y0) color (some cw) h]
  rw [Debug.splitline_spec _ _ ts rfl]
  refine ⟨by simp [numOrZero], splitCmdsF_count _ _ _ _ _ _ _ _ _, ⟨_, rfl, ?_⟩⟩
  simp [numOrZero, List.append_assoc]

/-- Witness for C2: a bracket at `(10, 20)` with `columnWidth = 30` and a
three-fragment `splitline` on `dCanvas` advances the cursor to `36` and
emits `2 * 3` text draws (shadows are on by default). -/
theorem C2_splitline_columns_witness :
    dCanvas.context = some ctx0 ∧
    ((dCanvas.start (some 10) (some 20) (some "red") (some 30)).splitline
        ["a", "b", "c"]).currentY = 20 + dCanvas.lineHeight ∧
    countFillText (splitCmdsF dCanvas.renderShadow (strOr (some "red") "rgb(255,255,255)")
        dCanvas.font 1 20 30 (strOr (some "red") "rgb(255,255,255)") 10 ["a", "b", "c"])
      = (if dCanvas.renderShadow then 2 else 1) * (["a", "b", "c"].length) := by
  have hc := C2_splitline_columns dCanvas ctx0 10 20 30 (some "red") ["a", "b", "c"] rfl
  exact ⟨rfl, hc.1, hc.2.1⟩

namespace Debug

/-- After a `start` on a non-null context the saved `currentAlpha` is the
surface's previous global alpha. -/
theorem start_currentAlpha (d : Debug) (ctx : Ctx) (x y : Option ℚ) (c : Option String)
    (w : Option ℚ) (h : d.context = some ctx) :
    (d.start x y c w).currentAlpha = ctx.state.globalAlpha := by
  rw [start_spec d ctx x y c w h]

/-- After a `start` on a non-null context the surface's global alpha is
forced to 1. -/
theorem start_ctxAlpha (d : Debug) (ctx : Ctx) (x y : Option ℚ) (c : Option String)
    (w : Option ℚ) (h : d.context = some ctx) :
    ∃ ctx1, (d.start x y c w).context = some ctx1 ∧ ctx1.state.globalAlpha = 1 := by
  rw [start_spec d ctx x y c w h]
  exact ⟨_, rfl, rfl⟩

end Debug

/-- Claim C3 (amended): in the direct-drawing mode (`sprite` null, i.e. the
CANVAS branch of the constructor), `start` immediately followed by `stop`
restores the surface's full ambient state — stroke/fill color, global alpha,
font, line width and transform — and its save stack to their pre-`start`
values.  In the offscreen-sprite mode `stop` additionally repaints, leaving
`fillStyle = "#ff0000"` (see the counterexample). -/
theorem C3_empty_bracket_restores (d : Debug) (ctx : Ctx) (x y : Option ℚ)
    (color : Option String) (cw : Option ℚ) (h : d.context = some ctx)
    (hsp : d.sprite = false) :
    ∃ d2 ctx2, (d.start x y color cw).stop = Except.ok d2 ∧
      d2.context = some ctx2 ∧ ctx2.state = ctx.state ∧ ctx2.stack = ctx.stack := by
  rw [Debug.start_spec d ctx x y color cw h]
  rw [Debug.stop_spec _ _ rfl]
  refine ⟨_, _, rfl, rfl, ?_, ?_⟩ <;>
    simp [hsp, Ctx.restore, Ctx.setGlobalAlpha]

/-- Witness for C3 (amended): the concrete CANVAS-mode renderer `dCanvas`
over the surface `ctx0`. -/
theorem C3_empty_bracket_restores_witness :
    dCanvas.context = some ctx0 ∧ dCanvas.sprite = false ∧
    (∃ d2 ctx2, (dCanvas.start none none none none).stop = Except.ok d2 ∧
      d2.context = some ctx2 ∧ ctx2.state = ctx0.state ∧ ctx2.stack = ctx0.stack) :=
  ⟨rfl, rfl, C3_empty_bracket_restores dCanvas ctx0 none none none none rfl rfl⟩

/-- Counterexample to claim C3 as stated: in the offscreen-sprite mode
(non-null context `ctx0`, whose ambient fill style is `"blue"`), `start`
immediately followed by `stop` leaves the ambient fill style `"#ff0000"`,
not the pre-`start` value: `stop`'s sprite branch repaints the surface after
the restore. -/
theorem C3_sprite_mode_cex :
    dSprite.context = some ctx0 ∧ ctx0.state.fillStyle = "blue" ∧
    fillStyleOfRes ((dSprite.start none none none none).stop) = some "#ff0000" :=
  ⟨rfl, rfl, rfl⟩

/-- Claim C9: a second `start` before any `stop` (non-null context)
overwrites the saved `currentAlpha` with the full-opacity alpha (1) forced
by the first `start`, so both the matching `stop` and the eventual second
`stop` leave the surface's global alpha at 1 — not at the alpha in effect
before the first `start` (whenever that alpha was not itself 1). -/
theorem C9_nested_start_clobbers_alpha (d : Debug) (ctx : Ctx)
    (x1 y1 : Option ℚ) (c1 : Option String) (w1 : Option ℚ)
    (x2 y2 : Option ℚ) (c2 : Option String) (w2 : Option ℚ)
    (h : d.context = some ctx) :
    ((d.start x1 y1 c1 w1).start x2 y2 c2 w2).currentAlpha = 1 ∧
    ∃ d3 ctx3, ((d.start x1 y1 c1 w1).start x2 y2 c2 w2).stop = Except.ok d3 ∧
      d3.context = some ctx3 ∧ ctx3.state.globalAlpha = 1 ∧
      ∃ d4 ctx4, d3.stop = Except.ok d4 ∧ d4.context = some ctx4 ∧
        ctx4.state.globalAlpha = 1 ∧
        (ctx.state.globalAlpha ≠ 1 → ctx4.state.globalAlpha ≠ ctx.state.globalAlpha) := by
  obtain ⟨ctx1, h1, ha1⟩ := Debug.start_ctxAlpha d ctx x1 y1 c1 w1 h
  have h2a := Debug.start_currentAlpha _ ctx1 x2 y2 c2 w2 h1
  rw [ha1] at h2a
  obtain ⟨ctx2, h2, _⟩ := Debug.start_ctxAlpha _ ctx1 x2 y2 c2 w2 h1
  obtain ⟨ctx3, hstop3, ha3⟩ := Debug.stop_alpha _ ctx2 h2
  rw [h2a] at ha3
  refine ⟨h2a, _, ctx3, hstop3, rfl, ha3, ?_⟩
  obtain ⟨ctx4, hstop4, ha4⟩ :=
    Debug.stop_alpha { (d.start x1 y1 c1 w1).start x2 y2 c2 w2 with context := some ctx3 }
      ctx3 rfl
  rw [show ({ (d.start x1 y1 c1 w1).start x2 y2 c2 w2 with context := some ctx3 } : Debug).currentAlpha
        = ((d.start x1 y1 c1 w1).start x2 y2 c2 w2).currentAlpha from rfl, h2a] at ha4
  exact ⟨_, ctx4, hstop4, rfl, ha4, fun hne => ha4 ▸ fun hcon => hne hcon.symm⟩

/-- Witness for C9: on `dCanvas` (pre-`start` global alpha 3 ≠ 1), the run
`start; start; stop; stop` ends with global alpha 1 ≠ 3. -/
theorem C9_nested_start_clobbers_alpha_witness :
    dCanvas.context = some ctx0 ∧
    ((dCanvas.start none none none none).start none none none none).currentAlpha = 1 ∧
    (∃ d3 ctx3, ((dCanvas.start none none none none).start none none none none).stop
        = Except.ok d3 ∧
      d3.context = some ctx3 ∧ ctx3.state.globalAlpha = 1 ∧
      ∃ d4 ctx4, d3.stop = Except.ok d4 ∧ d4.context = some ctx4 ∧
        ctx4.state.globalAlpha = 1 ∧
        (ctx0.state.globalAlpha ≠ 1 → ctx4.state.globalAlpha ≠ ctx0.state.globalAlpha)) := by
  have hc := C9_nested_start_clobbers_alpha dCanvas ctx0 none none none none
    none none none none rfl
  exact ⟨rfl, hc.1, hc.2⟩

/-- Abscissas of the text draws of a two-fragment `splitline` with
`columnWidth = 0`: both fragments land at the same `x`. -/
theorem fillXs_split_pair_zero (sh : Bool) (c font : String) (alpha y : ℚ)
    (f : String) (x : ℚ) (s t : String) :
    fillXs (splitCmdsF sh c font alpha y 0 f x [s, t]) =
      if sh then [x + 1, x, x + 1, x] else [x, x] := by
  cases sh <;> simp [splitCmdsF, fillXs]

/-- Claim C10: a `start` that omits `columnWidth` (non-null context) sets the
instance field `columnWidth` to 0 — overwriting the constructor default 100
and any configured value — the overwrite survives `stop`, and a later
`splitline` therefore draws all its fragments at the same abscissa. -/
theorem C10_columnWidth_reset (d : Debug) (ctx : Ctx) (x0 y0 : ℚ)
    (color : Option String) (s t : String) (h : d.context = some ctx) :
    (d.start (some x0) (some y0) color none).columnWidth = 0 ∧
    ∃ d2, (d.start (some x0) (some y0) color none).stop = Except.ok d2 ∧
      d2.columnWidth = 0 ∧
      ∃ ctx2 ctx3, d2.context = some ctx2 ∧
        (d2.splitline [s, t]).context = some ctx3 ∧
        fillXs ctx3.trace = fillXs ctx2.trace ++
          (if d.renderShadow then [x0 + 1, x0, x0 + 1, x0] else [x0, x0]) := by
  rw [Debug.start_spec d ctx (some x0) (some y0) color none h]
  rw [Debug.stop_spec _ _ rfl]
  refine ⟨rfl, _, rfl, rfl, ?_⟩
  rw [Debug.splitline_spec _ _ [s, t] rfl]
  refine ⟨_, _, rfl, rfl, ?_⟩
  rw [fillXs_append]
  congr 1
  exact fillXs_split_pair_zero _ _ _ _ _ _ _ _ _

/-- Witness for C10: on `dCanvas` (whose `columnWidth` is the default 100),
a bracket opened at `(7, 9)` without a `columnWidth` argument leaves the
field 0 through `stop`, and a following two-fragment `splitline` draws both
fragments at abscissa 7. -/
theorem C10_columnWidth_reset_witness :
    dCanvas.context = some ctx0 ∧ dCanvas.columnWidth = 100 ∧
    ((dCanvas.start (some 7) (some 9) none none).columnWidth = 0 ∧
    ∃ d2, (dCanvas.start (some 7) (some 9) none none).stop = Except.ok d2 ∧
      d2.columnWidth = 0 ∧
      ∃ ctx2 ctx3, d2.context = some ctx2 ∧
        (d2.splitline ["a", "b"]).context = some ctx3 ∧
        fillXs ctx3.trace = fillXs ctx2.trace ++
          (if dCanvas.renderShadow then [7 + 1, 7, 7 + 1, 7] else [7, 7])) :=
  ⟨rfl, rfl, C10_columnWidth_reset dCanvas ctx0 7 9 none "a" "b" rfl⟩

/-- Counterexample to claim C4 as stated: `dIdle` is an `Idle` renderer (a
fresh CANVAS-mode renderer after one completed bracket) with a non-null
context, yet `line("a")` emits two text draws — the emission methods carry
no guard tied to the `Idle`/`Drawing` state, only the null-context check. -/
theorem C4_idle_line_draws_cex :
    dIdle.context.isSome = true ∧
    countFillText (traceOfD (dIdle.line "a" none none)) =
      countFillText (traceOfD dIdle) + 2 := by
  exact ⟨rfl, by decide⟩

/-- Claim C4 (amended): the emission methods are never an error while the
renderer is `Idle`, but they are safe no-ops only when the context is null:
`line` and `splitline` then return the state unchanged, while the four
`renderShape` helpers (which have no guard at all) throw on a null context.
With a non-null context every emission method emits its draw calls whether
or not a bracket is open: `line` adds 2 text draws with shadows enabled
(1 without), `splitline` adds 2k (or k), and `renderShapeCircle` appends
its full command sequence. -/
theorem C4_idle_emission :
    (∀ (d : Debug) (t : String) (x y : Option ℚ), d.context = none → d.line t x y = d) ∧
    (∀ (d : Debug) (ts : List String), d.context = none → d.splitline ts = d) ∧
    (∀ (d : Debug) (x y ba : ℚ) (s : RectShape) (off : ℚ × ℚ) (a : ℚ),
      d.context = none → d.renderShapeRectangle x y ba s off a = Except.error d) ∧
    (∀ (d : Debug) (x y ba : ℚ) (s : LineShape) (off : ℚ × ℚ) (a : ℚ),
      d.context = none → d.renderShapeLine x y ba s off a = Except.error d) ∧
    (∀ (d : Debug) (x y ba : ℚ) (s : ConvexShape) (off : ℚ × ℚ) (a : ℚ),
      d.context = none → d.renderShapeConvex x y ba s off a = Except.error d) ∧
    (∀ (d : Debug) (x y ba : ℚ) (s : CircleShape) (off : ℚ × ℚ) (a : ℚ),
      d.context = none → d.renderShapeCircle x y ba s off a = Except.error d) ∧
    (∀ (d : Debug) (ctx : Ctx) (t : String), d.context = some ctx →
      countFillText (traceOfD (d.line t none none)) =
        countFillText ctx.trace + (if d.renderShadow then 2 else 1)) ∧
    (∀ (d : Debug) (ctx : Ctx) (ts : List String), d.context = some ctx →
      countFillText (traceOfD (d.splitline ts)) =
        countFillText ctx.trace + (if d.renderShadow then 2 else 1) * ts.length) ∧
    (∀ (d : Debug) (ctx : Ctx) (x y ba : ℚ) (s : CircleShape) (off : ℚ × ℚ) (a : ℚ),
      d.context = some ctx →
      traceOfRes (d.renderShapeCircle x y ba s off a) =
        some (ctx.trace ++ shapeCircleCmds ctx.state d.game.p2px d.game.p2pxi x y s.radius off)) := by
  refine ⟨?_, ?_, ?_, ?_, ?_, ?_, ?_, ?_, ?_⟩
  · intro d t x y h; simp [Debug.line, h]
  · intro d ts h; simp [Debug.splitline, h]
  · intro d x y ba s off a h; simp [Debug.renderShapeRectangle, h]
  · intro d x y ba s off a h; simp [Debug.renderShapeLine, h]
  · intro d x y ba s off a h; simp [Debug.renderShapeConvex, h]
  · intro d x y ba s off a h; simp [Debug.renderShapeCircle, h]
  · intro d ctx t h
    rw [Debug.line_spec d ctx t h]
    simp [traceOfD, countFillText_append, lineCmdsF_count]
  · intro d ctx ts h
    rw [Debug.splitline_spec d ctx ts h]
    simp [traceOfD, countFillText_append, splitCmdsF_count]
  · intro d ctx x y ba s off a h
    rw [Debug.renderShapeCircle_spec d ctx x y ba s off a h]
    rfl

/-- Witness for C4 (amended): on the null-context renderer `dNull` a `line`
call is a no-op; on the live renderer `dCanvas` a `line` call adds its two
text draws. -/
theorem C4_idle_emission_witness :
    dNull.context = none ∧ dNull.line "a" none none = dNull ∧
    dCanvas.context = some ctx0 ∧
    countFillText (traceOfD (dCanvas.line "a" none none)) =
      countFillText ctx0.trace + (if dCanvas.renderShadow then 2 else 1) :=
  ⟨rfl, C4_idle_emission.1 dNull "a" none none rfl, rfl,
   C4_idle_emission.2.2.2.2.2.2.1 dCanvas ctx0 "a" rfl⟩

/-- Counterexample to claim C5 as stated: `stop` performs no surface check —
`this.context.restore()` dereferences the null context and throws. -/
theorem C5_stop_throws_cex :
    dNull.context = none ∧ resIsError dNull.stop = true :=
  ⟨rfl, rfl⟩

/-- Claim C5 (amended): when the context is null every public method except
`stop` and the four `renderShape` helpers is a raise-free no-op producing
zero context operations; the check sits at the top of each of those entry
points, except in `renderSpriteBounds`, which reads the sprite's bounds
first and relies on `renderRectangle`'s check.  `stop` and the `renderShape`
helpers dereference the surface unconditionally and throw on a null
context. -/
theorem C5_null_context_noop :
    ∀ (d : Debug), d.context = none →
    (∀ x y c w, d.start x y c w = d) ∧
    (∀ t x y, d.line t x y = d) ∧
    (∀ ts, d.splitline ts = d) ∧
    (∀ snd x y c, d.renderSoundInfo snd x y c = Except.ok d) ∧
    (∀ cam x y c, d.renderCameraInfo cam x y c = Except.ok d) ∧
    (∀ p hu dc uc c, d.renderPointer p hu dc uc c = Except.ok d) ∧
    (∀ s x y c, d.renderSpriteInputInfo s x y c = Except.ok d) ∧
    (∀ k x y c, d.renderKey k x y c = Except.ok d) ∧
    (∀ x y c, d.renderInputInfo x y c = Except.ok d) ∧
    (∀ s x y c, d.renderSpriteInfo s x y c = Except.ok d) ∧
    (∀ s x y c, d.renderSpriteCoords s x y c = Except.ok d) ∧
    (∀ l c, d.renderLine l c = Except.ok d) ∧
    (∀ l x y c, d.renderLineInfo l x y c = Except.ok d) ∧
    (∀ p x y c, d.renderPointInfo p x y c = Except.ok d) ∧
    (∀ x y c, d.renderPixel x y c = Except.ok d) ∧
    (∀ p c, d.renderPoint p c = Except.ok d) ∧
    (∀ r c f, d.renderRectangle r c f = Except.ok d) ∧
    (∀ cir c, d.renderCircle cir c = Except.ok d) ∧
    (∀ t x y c f, d.renderText t x y c f = Except.ok d) ∧
    (∀ s x y c, d.renderBodyInfo s x y c = Except.ok d) ∧
    (∀ b c, d.renderPhysicsBody b c = Except.ok d) ∧
    (∀ s c f, d.renderSpriteBounds (some s) c f = Except.ok d) ∧
    d.stop = Except.error d ∧
    (∀ x y ba s off a, d.renderShapeRectangle x y ba s off a = Except.error d) ∧
    (∀ x y ba s off a, d.renderShapeLine x y ba s off a = Except.error d) ∧
    (∀ x y ba s off a, d.renderShapeConvex x y ba s off a = Except.error d) ∧
    (∀ x y ba s off a, d.renderShapeCircle x y ba s off a = Except.error d) := by
  intro d h
  refine ⟨?_, ?_, ?_, ?_, ?_, ?_, ?_, ?_, ?_, ?_, ?_, ?_, ?_, ?_, ?_, ?_, ?_, ?_, ?_, ?_,
          ?_, ?_, ?_, ?_, ?_, ?_, ?_⟩
  · intro x y c w; simp [Debug.start, h]
  · intro t x y; simp [Debug.line, h]
  · intro ts; simp [Debug.splitline, h]
  · intro snd x y c; simp [Debug.renderSoundInfo, h]
  · intro cam x y c; simp [Debug.renderCameraInfo, h]
  · intro p hu dc uc c; cases p <;> simp [Debug.renderPointer, h]
  · intro s x y c; simp [Debug.renderSpriteInputInfo, h]
  · intro k x y c; simp [Debug.renderKey, h]
  · intro x y c; simp [Debug.renderInputInfo, h]
  · intro s x y c; simp [Debug.renderSpriteInfo, h]
  · intro s x y c; simp [Debug.renderSpriteCoords, h]
  · intro l c; simp [Debug.renderLine, h]
  · intro l x y c; simp [Debug.renderLineInfo, h]
  · intro p x y c; simp [Debug.renderPointInfo, h]
  · intro x y c; simp [Debug.renderPixel, h]
  · intro p c; simp [Debug.renderPoint, h]
  · intro r c f; simp [Debug.renderRectangle, h]
  · intro cir c; simp [Debug.renderCircle, h]
  · intro t x y c f; simp [Debug.renderText, h]
  · intro s x y c; simp [Debug.renderBodyInfo, h]
  · intro b c; simp [Debug.renderPhysicsBody, h]
  · intro s c f; simp [Debug.renderSpriteBounds, Debug.renderRectangle, h]
  · simp [Debug.stop, h]
  · intro x y ba s off a; simp [Debug.renderShapeRectangle, h]
  · intro x y ba s off a; simp [Debug.renderShapeLine, h]
  · intro x y ba s off a; simp [Debug.renderShapeConvex, h]
  · intro x y ba s off a; simp [Debug.renderShapeCircle, h]

/-- Witness for C5 (amended): on the null-context renderer `dNull`, `start`
and `renderSoundInfo` are no-ops while `stop` throws. -/
theorem C5_null_context_noop_witness :
    dNull.context = none ∧ dNull.start none none none none = dNull ∧
    dNull.renderSoundInfo none none none none = Except.ok dNull ∧
    dNull.stop = Except.error dNull := by
  have hc := C5_null_context_noop dNull rfl
  exact ⟨rfl, hc.1 none none none none, hc.2.2.2.1 none none none none,
    hc.2.2.2.2.2.2.2.2.2.2.2.2.2.2.2.2.2.2.2.2.2.2.1⟩

/-- Counterexample to claim C6 as stated: `renderSoundInfo` with a null
`sound` and a live surface throws (`sound.key` on null) instead of being a
no-op. -/
theorem C6_null_sound_throws_cex :
    dCanvas.context.isSome = true ∧
    resIsError (dCanvas.renderSoundInfo none none none none) = true :=
  ⟨rfl, rfl⟩

/-- Claim C6 (amended): only `renderPointer` treats a null snapshot as a
no-op.  Every other render method taking a required snapshot dereferences it
and throws when it is null and the context is non-null (`renderSpriteBounds`
even throws regardless of the context, since it reads the sprite's bounds
before any check). -/
theorem C6_null_snapshot :
    (∀ (d : Debug) (hu : Option Bool) (dc uc c : Option String),
      d.renderPointer none hu dc uc c = Except.ok d) ∧
    (∀ (d : Debug) (ctx : Ctx) (x y : Option ℚ) (c : Option String), d.context = some ctx →
      resIsError (d.renderSoundInfo none x y c) = true ∧
      resIsError (d.renderCameraInfo none x y c) = true ∧
      resIsError (d.renderSpriteInputInfo none x y c) = true ∧
      resIsError (d.renderKey none x y c) = true ∧
      resIsError (d.renderSpriteInfo none x y c) = true ∧
      resIsError (d.renderSpriteCoords none x y c) = true ∧
      resIsError (d.renderLineInfo none x y c) = true ∧
      resIsError (d.renderPointInfo none x y c) = true ∧
      resIsError (d.renderBodyInfo none x y c) = true ∧
      resIsError (d.renderLine none c) = true ∧
      resIsError (d.renderPoint none c) = true ∧
      (∀ f, resIsError (d.renderRectangle none c f) = true) ∧
      resIsError (d.renderCircle none c) = true ∧
      resIsError (d.renderPhysicsBody none c) = true) ∧
    (∀ (d : Debug) (c : Option String) (f : Option Bool),
      d.renderSpriteBounds none c f = Except.error d) := by
  refine ⟨?_, ?_, ?_⟩
  · intro d hu dc uc c
    cases hctx : d.context <;> simp [Debug.renderPointer, hctx]
  · intro d ctx x y c h
    refine ⟨?_, ?_, ?_, ?_, ?_, ?_, ?_, ?_, ?_, ?_, ?_, ?_, ?_, ?_⟩
    · simp [Debug.renderSoundInfo, h, resIsError]
    · simp [Debug.renderCameraInfo, h, resIsError]
    · simp [Debug.renderSpriteInputInfo, h, resIsError]
    · simp [Debug.renderKey, h, resIsError]
    · simp [Debug.renderSpriteInfo, h, resIsError]
    · simp [Debug.renderSpriteCoords, h, resIsError]
    · simp [Debug.renderLineInfo, h, resIsError]
    · simp [Debug.renderPointInfo, h, resIsError]
    · simp [Debug.renderBodyInfo, h, resIsError]
    · simp [Debug.renderLine, h, resIsError]
    · simp [Debug.renderPoint, h, resIsError]
    · intro f
      cases hf : f.getD true <;>
        simp [Debug.renderRectangle, h, resIsError, hf]
    · simp [Debug.renderCircle, h, resIsError]
    · simp [Debug.renderPhysicsBody, h, resIsError]
  · intro d c f
    simp [Debug.renderSpriteBounds]

/-- Witness for C6 (amended): on `dCanvas`, `renderPointer` with a null
pointer returns unchanged while `renderSoundInfo` with a null sound throws. -/
theorem C6_null_snapshot_witness :
    dCanvas.renderPointer none none none none none = Except.ok dCanvas ∧
    dCanvas.context = some ctx0 ∧
    resIsError (dCanvas.renderSoundInfo none none none none) = true :=
  ⟨C6_null_snapshot.1 dCanvas none none none none, rfl,
   (C6_null_snapshot.2.1 dCanvas ctx0 none none none rfl).1⟩

/-- Claim C7, evaluated at the failing input: a Line/Segment shape of
physics length 2 with a nonzero local offset `(1, 2)`, rendered at body
position `(5, 6)` with body angle `1/2` and shape angle `1/4` on `dCanvas`
(scale: 20 px per meter, `p2pxi v = -20 v`).  The emitted transform is
`translate(5, 6)` — the shape's offset is ignored, where the spec requires
`translate(5 + p2pxi 1, 6 + p2pxi 2) = translate(-15, -34)`.  The rotation
(`bodyAngle + shapeAngle`) and the segment (origin to `(p2px 2, 0)`) do
follow the spec. -/
theorem C7_segment_ignores_offset :
    traceOfRes (dCanvas.renderShapeLine 5 6 (1/2) { length := 2 } (1, 2) (1/4)) =
      some [CanvasCmd.beginPath, CanvasCmd.save, CanvasCmd.translate 5 6,
            CanvasCmd.rotate (1/2 + 1/4), CanvasCmd.setLineWidth (1/2),
            CanvasCmd.moveTo 0 0, CanvasCmd.lineTo 40 0, CanvasCmd.closePath,
            CanvasCmd.stroke "green" (1/2)
              [TransformOp.translate 5 6, TransformOp.rotate (1/2 + 1/4)],
            CanvasCmd.restore] ∧
    ((5 : ℚ) + gameStub.p2pxi 1 ≠ 5 ∧ (6 : ℚ) + gameStub.p2pxi 2 ≠ 6) := by
  refine ⟨?_, ?_, ?_⟩
  · rw [Debug.renderShapeLine_spec dCanvas ctx0 5 6 (1/2) { length := 2 } (1, 2) (1/4) rfl]
    simp only [traceOfRes, traceOfD, shapeLineCmds, ctx0, gameStub, Option.some.injEq]
    norm_num [dCanvas, debugInit, gameStub, ctx0]
  · simp only [gameStub]
    norm_num
  · simp only [gameStub]
    norm_num

namespace Debug

/-- A successful shape dispatch never changes the Cursor State. -/
theorem dispatch_preserves (d : Debug) (x y a : ℚ) (s : PhysShape × (ℚ × ℚ) × ℚ)
    (dmid : Debug) (hok : renderShapeDispatch d x y a s = Except.ok dmid) :
    dmid.currentX = d.currentX ∧ dmid.currentY = d.currentY ∧
    dmid.columnWidth = d.columnWidth ∧ dmid.currentColor = d.currentColor := by
  obtain ⟨sh, off, ang⟩ := s
  cases sh with
  | rect s =>
    cases hctx : d.context with
    | none => simp [renderShapeDispatch, renderShapeRectangle, hctx] at hok
    | some ctx =>
      cases hv : s.vertices with
      | nil => simp [renderShapeDispatch, renderShapeRectangle, hctx, hv] at hok
      | cons p ps =>
        simp only [renderShapeDispatch] at hok
        rw [renderShapeRectangle_spec d ctx x y a s off ang p ps hctx hv] at hok
        injection hok with hok
        subst hok
        exact ⟨rfl, rfl, rfl, rfl⟩
  | segment s =>
    cases hctx : d.context with
    | none => simp [renderShapeDispatch, renderShapeLine, hctx] at hok
    | some ctx =>
      simp only [renderShapeDispatch] at hok
      rw [renderShapeLine_spec d ctx x y a s off ang hctx] at hok
      injection hok with hok
      subst hok
      exact ⟨rfl, rfl, rfl, rfl⟩
  | convex s =>
    cases hctx : d.context with
    | none => simp [renderShapeDispatch, renderShapeConvex, hctx] at hok
    | some ctx =>
      cases hv : s.vertices with
      | nil => simp [renderShapeDispatch, renderShapeConvex, hctx, hv] at hok
      | cons p ps =>
        simp only [renderShapeDispatch] at hok
        rw [renderShapeConvex_spec d ctx x y a s off ang p ps hctx hv] at hok
        injection hok with hok
        subst hok
        exact ⟨rfl, rfl, rfl, rfl⟩
  | circle s =>
    cases hctx : d.context with
    | none => simp [renderShapeDispatch, renderShapeCircle, hctx] at hok
    | some ctx =>
      simp only [renderShapeDispatch] at hok
      rw [renderShapeCircle_spec d ctx x y a s off ang hctx] at hok
      injection hok with hok
      subst hok
      exact ⟨rfl, rfl, rfl, rfl⟩
  | other =>
    simp only [renderShapeDispatch] at hok
    injection hok with hok
    subst hok
    exact ⟨rfl, rfl, rfl, rfl⟩

/-- A successful run of the shape loop never changes the Cursor State. -/
theorem renderShapesLoop_preserves (shapes : List (PhysShape × (ℚ × ℚ) × ℚ)) :
    ∀ (x y a : ℚ) (d d2 : Debug), renderShapesLoop x y a d shapes = Except.ok d2 →
    d2.currentX = d.currentX ∧ d2.currentY = d.currentY ∧
    d2.columnWidth = d.columnWidth ∧ d2.currentColor = d.currentColor := by
  induction shapes with
  | nil =>
    intro x y a d d2 hok
    simp only [renderShapesLoop] at hok
    injection hok with hok
    subst hok
    exact ⟨rfl, rfl, rfl, rfl⟩
  | cons s rest ih =>
    intro x y a d d2 hok
    rw [renderShapesLoop] at hok
    split at hok
    · exact absurd hok (by simp)
    · rename_i dmid heq
      obtain ⟨h1, h2, h3, h4⟩ := dispatch_preserves d x y a s dmid heq
      obtain ⟨g1, g2, g3, g4⟩ := ih x y a dmid d2 hok
      exact ⟨g1.trans h1, g2.trans h2, g3.trans h3, g4.trans h4⟩

/-- A successful `stop` never changes the Cursor State. -/
theorem stop_cursor (d d2 : Debug) (hok : d.stop = Except.ok d2) :
    d2.currentX = d.currentX ∧ d2.currentY = d.currentY ∧
    d2.columnWidth = d.columnWidth ∧ d2.currentColor = d.currentColor := by
  cases hctx : d.context with
  | none => simp [Debug.stop, hctx] at hok
  | some ctx =>
    rw [stop_spec d ctx hctx] at hok
    injection hok with hok
    subst hok
    exact ⟨rfl, rfl, rfl, rfl⟩

end Debug

/-- The repeated-default lemma for `color || dflt`: re-defaulting an already
defaulted color string changes nothing. -/
theorem strOr_idem (c : Option String) (dflt : String) :
    strOr (some (strOr c dflt)) dflt = strOr c dflt := by
  cases c with
  | none => simp [strOr]
  | some s =>
    by_cases hs : s = "" <;> simp [strOr, hs]

/-- Counterexample to claim C8 as stated: `renderPhysicsBody` on the `Idle`
renderer `dX5` (cursor at `currentX = 5`, `columnWidth = 100`) resets the
Cursor State — after the call `currentX` is 0 and `columnWidth` is 0 —
because `renderPhysicsBody` opens its own bracket with `start(0, 0, color)`. -/
theorem C8_cursor_reset_cex :
    dX5.currentX = 5 ∧ dX5.columnWidth = 100 ∧ dX5.context.isSome = true ∧
    Except.map Debug.currentX (dX5.renderPhysicsBody (some bodyZero) none) = Except.ok 0 ∧
    Except.map Debug.columnWidth (dX5.renderPhysicsBody (some bodyZero) none) = Except.ok 0 :=
  ⟨rfl, rfl, rfl, rfl, rfl⟩

/-- Claim C8 (amended): each of the four per-shape renderers, on a non-null
context (and a non-empty vertex list for the polygon shapes), succeeds and
only appends its save/restore-scoped command sequence to the trace — the
surface's ambient state, its save stack and the whole Cursor State are left
untouched; an unrecognized shape tag is skipped with no draw call and no
state change at all.  `renderPhysicsBody` itself, however, resets the
Cursor State through its internal `start(0, 0, color)` bracket: any
successful call leaves `currentX = currentY = columnWidth = 0` and
`currentColor` the bracket color. -/
theorem C8_shape_adapter_contract :
    (∀ (d : Debug) (ctx : Ctx) (x y ba : ℚ) (s : RectShape) (off : ℚ × ℚ) (a : ℚ)
        (p : ℚ × ℚ) (ps : List (ℚ × ℚ)), d.context = some ctx → s.vertices = p :: ps →
      d.renderShapeRectangle x y ba s off a = Except.ok { d with
        context := some { ctx with
          trace := ctx.trace ++ shapePolyCmds ctx.state d.game.p2pxi x y ba a off p ps } }) ∧
    (∀ (d : Debug) (ctx : Ctx) (x y ba : ℚ) (s : LineShape) (off : ℚ × ℚ) (a : ℚ),
      d.context = some ctx →
      d.renderShapeLine x y ba s off a = Except.ok { d with
        context := some { ctx with
          trace := ctx.trace ++ shapeLineCmds ctx.state d.game.p2px x y ba a s.length } }) ∧
    (∀ (d : Debug) (ctx : Ctx) (x y ba : ℚ) (s : ConvexShape) (off : ℚ × ℚ) (a : ℚ)
        (p : ℚ × ℚ) (ps : List (ℚ × ℚ)), d.context = some ctx → s.vertices = p :: ps →
      d.renderShapeConvex x y ba s off a = Except.ok { d with
        context := some { ctx with
          trace := ctx.trace ++ shapePolyCmds ctx.state d.game.p2pxi x y ba a off p ps } }) ∧
    (∀ (d : Debug) (ctx : Ctx) (x y ba : ℚ) (s : CircleShape) (off : ℚ × ℚ) (a : ℚ),
      d.context = some ctx →
      d.renderShapeCircle x y ba s off a = Except.ok { d with
        context := some { ctx with
          trace := ctx.trace ++ shapeCircleCmds ctx.state d.game.p2px d.game.p2pxi x y s.radius off } }) ∧
    (∀ (d : Debug) (x y a : ℚ) (off : ℚ × ℚ) (sa : ℚ),
      Debug.renderShapeDispatch d x y a (PhysShape.other, off, sa) = Except.ok d) ∧
    (∀ (d : Debug) (ctx : Ctx) (b : PhysicsBodySnapshot) (color : Option String) (d2 : Debug),
      d.context = some ctx → d.renderPhysicsBody (some b) color = Except.ok d2 →
      d2.currentX = 0 ∧ d2.currentY = 0 ∧ d2.columnWidth = 0 ∧
      d2.currentColor = strOr color "rgb(255,255,255)") := by
  refine ⟨?_, ?_, ?_, ?_, ?_, ?_⟩
  · intro d ctx x y ba s off a p ps h hv
    exact Debug.renderShapeRectangle_spec d ctx x y ba s off a p ps h hv
  · intro d ctx x y ba s off a h
    exact Debug.renderShapeLine_spec d ctx x y ba s off a h
  · intro d ctx x y ba s off a p ps h hv
    exact Debug.renderShapeConvex_spec d ctx x y ba s off a p ps h hv
  · intro d ctx x y ba s off a h
    exact Debug.renderShapeCircle_spec d ctx x y ba s off a h
  · intro d x y a off sa
    rfl
  · intro d ctx b color d2 h hok
    simp only [Debug.renderPhysicsBody, h] at hok
    split at hok
    · exact absurd hok (by simp)
    · rename_i dmid heq
      obtain ⟨g1, g2, g3, g4⟩ := Debug.renderShapesLoop_preserves b.shapes.reverse _ _ _ _ _ heq
      obtain ⟨f1, f2, f3, f4⟩ := Debug.stop_cursor dmid d2 hok
      rw [Debug.start_spec d ctx (some 0) (some 0)
            (some (strOr color "rgb(255,255,255)")) none h] at g1 g2 g3 g4
      refine ⟨?_, ?_, ?_, ?_⟩
      · rw [f1, g1]; rfl
      · rw [f2, g2]; rfl
      · rw [f3, g3]; rfl
      · rw [f4, g4]
        exact strOr_idem color "rgb(255,255,255)"

/-- Witness for C8 (amended): a concrete triangle shape with a non-empty
vertex list rendered on `dCanvas`, and the unrecognized-tag skip. -/
theorem C8_shape_adapter_contract_witness :
    dCanvas.context = some ctx0 ∧
    ({ width := 1, height := 1, vertices := [(0, 0), (1, 0), (1, 1)] } : RectShape).vertices
        = (0, 0) :: [(1, 0), (1, 1)] ∧
    dCanvas.renderShapeRectangle 5 6 0
        { width := 1, height := 1, vertices := [(0, 0), (1, 0), (1, 1)] } (0, 0) 0
      = Except.ok { dCanvas with
          context := some { ctx0 with
            trace := ctx0.trace ++
              shapePolyCmds ctx0.state dCanvas.game.p2pxi 5 6 0 0 (0, 0) (0, 0)
                [(1, 0), (1, 1)] } } ∧
    Debug.renderShapeDispatch dCanvas 5 6 0 (PhysShape.other, (0, 0), 0) = Except.ok dCanvas :=
  ⟨rfl, rfl,
   C8_shape_adapter_contract.1 dCanvas ctx0 5 6 0
     { width := 1, height := 1, vertices := [(0, 0), (1, 0), (1, 1)] } (0, 0) 0
     (0, 0) [(1, 0), (1, 1)] rfl rfl,
   C8_shape_adapter_contract.2.2.2.2.1 dCanvas 5 6 0 (0, 0) 0⟩

end Phaser
